import Mathlib

/-!
Verification of the HealthPassPort lab-report extraction core.

This file gives a shallow embedding, in Lean 4, of the relevant parts of the
repository:

* `app/data/biomarker_mapping.py` — the reference catalog, name
  standardization and abnormality flagging (pure string / rational logic);
* `app/models/biomarker.py` — `BiomarkerTrend.add_reading`;
* `app/routers/process.py` — `update_biomarker_trend`, the image path
  `process_image_report`, the submission and resume endpoints;
* `app/services/vision_service.py` — JSON recovery and multi-image merging;
* `app/services/pdf_service.py` and `app/graphs/lab_extraction/*` — the PDF
  workflow nodes, modelled over an explicit oracle environment that stands for
  the external collaborators (PyMuPDF, the vision/LLM endpoints, MongoDB).

Python `float` values are modelled as `ℚ`, datetimes as `Int` timestamps, and
Python `str` as Lean `String` (ASCII-faithful; the catalog is pure ASCII).
Dictionaries with a fixed key set become structures; absent/`None` values
become `Option`.
-/

/-! ### Python string primitives (ASCII fragment used by the repository) -/

/-- ASCII lowering of one character, as Python `str.lower` acts on ASCII. -/
def pyLowerChar (c : Char) : Char :=
  if 65 ≤ c.toNat ∧ c.toNat ≤ 90 then Char.ofNat (c.toNat + 32) else c

/-- Python `str.lower` (ASCII fragment). -/
def pyLower (s : String) : String := String.mk (s.data.map pyLowerChar)

/-- Python whitespace, the ASCII characters stripped by `str.strip`. -/
def isPySpace (c : Char) : Bool :=
  c = ' ' || c = '\t' || c = '\n' || c = '\r' || c = '\x0b' || c = '\x0c'

/-- Python `str.strip` on a character list: drop whitespace at both ends. -/
def pyStripList (l : List Char) : List Char :=
  ((l.dropWhile isPySpace).reverse.dropWhile isPySpace).reverse

/-- Python `str.strip`. -/
def pyStrip (s : String) : String := String.mk (pyStripList s.data)

/-- `.replace(" ", "_").replace("-", "_")` — both replacements are on single
characters, so they amount to one character map. -/
def cleanedSlug (s : String) : String :=
  String.mk (s.data.map (fun c => if c = ' ' || c = '-' then '_' else c))

/-- Python truthiness of an optional string (`None` and `""` are falsy). -/
def truthyS : Option String → Bool
  | none => false
  | some s => s ≠ ""

/-! ### `app/data/biomarker_mapping.py` -/

/-- One catalog entry: aliases, category, default unit and the gender-keyed
reference dictionary (`male` / `female` / `default`, each optional). -/
structure BiomarkerInfo where
  aliases : List String
  category : String
  default_unit : String
  ref_male : Option (ℚ × ℚ) := none
  ref_female : Option (ℚ × ℚ) := none
  ref_default : Option (ℚ × ℚ) := none
deriving Repr, DecidableEq

/-- `BIOMARKER_MAPPING`, in the source's insertion order (Python dicts preserve
insertion order, which the alias scan relies on). -/
def BIOMARKER_MAPPING : List (String × BiomarkerInfo) := [
  ("hemoglobin",
   { aliases := ["Hb", "Hgb", "Haemoglobin", "HGB", "Hemoglobin"],
     category := "CBC", default_unit := "g/dL",
     ref_male := some (13.5, 17.5), ref_female := some (12.0, 16.0), ref_default := some (12.0, 17.5) }),
  ("hematocrit",
   { aliases := ["Hct", "HCT", "Haematocrit", "Packed Cell Volume", "PCV"],
     category := "CBC", default_unit := "%",
     ref_male := some (38.3, 48.6), ref_female := some (35.5, 44.9), ref_default := some (35.5, 48.6) }),
  ("rbc",
   { aliases := ["RBC", "Red Blood Cell", "Red Blood Cells", "Erythrocytes", "Red Cell Count"],
     category := "CBC", default_unit := "M/uL",
     ref_male := some (4.5, 5.5), ref_female := some (4.0, 5.0), ref_default := some (4.0, 5.5) }),
  ("wbc",
   { aliases := ["WBC", "White Blood Cell", "White Blood Cells", "Leukocytes", "Total WBC Count", "Total WBC"],
     category := "CBC", default_unit := "K/uL", ref_default := some (4.5, 11.0) }),
  ("platelets",
   { aliases := ["PLT", "Platelet", "Platelet Count", "Thrombocytes"],
     category := "CBC", default_unit := "K/uL", ref_default := some (150, 400) }),
  ("mcv",
   { aliases := ["MCV", "Mean Corpuscular Volume", "Mean Cell Volume"],
     category := "CBC", default_unit := "fL", ref_default := some (80, 100) }),
  ("mch",
   { aliases := ["MCH", "Mean Corpuscular Hemoglobin", "Mean Cell Hemoglobin"],
     category := "CBC", default_unit := "pg", ref_default := some (27, 33) }),
  ("mchc",
   { aliases := ["MCHC", "Mean Corpuscular Hemoglobin Concentration"],
     category := "CBC", default_unit := "g/dL", ref_default := some (31.5, 35.5) }),
  ("rdw",
   { aliases := ["RDW", "Red Cell Distribution Width", "RDW-CV"],
     category := "CBC", default_unit := "%", ref_default := some (11.5, 14.5) }),
  ("neutrophils",
   { aliases := ["Neutrophils", "Neutrophil", "Neut", "Neutro", "Absolute Neutrophil Count", "ANC"],
     category := "CBC", default_unit := "%", ref_default := some (40, 70) }),
  ("lymphocytes",
   { aliases := ["Lymphocytes", "Lymphocyte", "Lymph", "Absolute Lymphocyte Count", "ALC"],
     category := "CBC", default_unit := "%", ref_default := some (20, 40) }),
  ("monocytes",
   { aliases := ["Monocytes", "Monocyte", "Mono", "Absolute Monocyte Count"],
     category := "CBC", default_unit := "%", ref_default := some (2, 8) }),
  ("eosinophils",
   { aliases := ["Eosinophils", "Eosinophil", "Eos", "Absolute Eosinophil Count", "AEC"],
     category := "CBC", default_unit := "%", ref_default := some (1, 4) }),
  ("basophils",
   { aliases := ["Basophils", "Basophil", "Baso", "Absolute Basophil Count"],
     category := "CBC", default_unit := "%", ref_default := some (0, 2) }),
  ("cholesterol_total",
   { aliases := ["Total Cholesterol", "Cholesterol", "TC", "Serum Cholesterol"],
     category := "LIPID", default_unit := "mg/dL", ref_default := some (0, 200) }),
  ("ldl",
   { aliases := ["LDL", "LDL Cholesterol", "LDL-C", "Low Density Lipoprotein", "Bad Cholesterol"],
     category := "LIPID", default_unit := "mg/dL", ref_default := some (0, 100) }),
  ("hdl",
   { aliases := ["HDL", "HDL Cholesterol", "HDL-C", "High Density Lipoprotein", "Good Cholesterol"],
     category := "LIPID", default_unit := "mg/dL",
     ref_male := some (40, 999), ref_female := some (50, 999), ref_default := some (40, 999) }),
  ("triglycerides",
   { aliases := ["Triglycerides", "TG", "Triglyceride", "Trigs"],
     category := "LIPID", default_unit := "mg/dL", ref_default := some (0, 150) }),
  ("vldl",
   { aliases := ["VLDL", "VLDL Cholesterol", "Very Low Density Lipoprotein"],
     category := "LIPID", default_unit := "mg/dL", ref_default := some (5, 40) }),
  ("glucose",
   { aliases := ["Glucose", "Blood Sugar", "FBS", "Fasting Blood Sugar", "Fasting Glucose", "Blood Glucose"],
     category := "METABOLIC", default_unit := "mg/dL", ref_default := some (70, 100) }),
  ("hba1c",
   { aliases := ["HbA1c", "A1C", "Glycated Hemoglobin", "Hemoglobin A1c", "Glycosylated Hemoglobin"],
     category := "METABOLIC", default_unit := "%", ref_default := some (4.0, 5.7) }),
  ("bun",
   { aliases := ["BUN", "Blood Urea Nitrogen", "Urea Nitrogen"],
     category := "METABOLIC", default_unit := "mg/dL", ref_default := some (7, 20) }),
  ("creatinine",
   { aliases := ["Creatinine", "Serum Creatinine", "Creat"],
     category := "METABOLIC", default_unit := "mg/dL",
     ref_male := some (0.7, 1.3), ref_female := some (0.6, 1.1), ref_default := some (0.6, 1.3) }),
  ("sodium",
   { aliases := ["Sodium", "Na", "Serum Sodium"],
     category := "METABOLIC", default_unit := "mEq/L", ref_default := some (136, 145) }),
  ("potassium",
   { aliases := ["Potassium", "K", "Serum Potassium"],
     category := "METABOLIC", default_unit := "mEq/L", ref_default := some (3.5, 5.0) }),
  ("chloride",
   { aliases := ["Chloride", "Cl", "Serum Chloride"],
     category := "METABOLIC", default_unit := "mEq/L", ref_default := some (98, 106) }),
  ("co2",
   { aliases := ["CO2", "Carbon Dioxide", "Bicarbonate", "HCO3"],
     category := "METABOLIC", default_unit := "mEq/L", ref_default := some (23, 29) }),
  ("calcium",
   { aliases := ["Calcium", "Ca", "Serum Calcium"],
     category := "METABOLIC", default_unit := "mg/dL", ref_default := some (8.5, 10.5) }),
  ("alt",
   { aliases := ["ALT", "SGPT", "Alanine Aminotransferase", "Alanine Transaminase"],
     category := "LIVER", default_unit := "U/L",
     ref_male := some (7, 56), ref_female := some (7, 45), ref_default := some (7, 56) }),
  ("ast",
   { aliases := ["AST", "SGOT", "Aspartate Aminotransferase", "Aspartate Transaminase"],
     category := "LIVER", default_unit := "U/L", ref_default := some (10, 40) }),
  ("alp",
   { aliases := ["ALP", "Alkaline Phosphatase", "Alk Phos"],
     category := "LIVER", default_unit := "U/L", ref_default := some (44, 147) }),
  ("bilirubin_total",
   { aliases := ["Total Bilirubin", "Bilirubin", "T. Bilirubin", "T.Bil"],
     category := "LIVER", default_unit := "mg/dL", ref_default := some (0.1, 1.2) }),
  ("albumin",
   { aliases := ["Albumin", "Serum Albumin", "Alb"],
     category := "LIVER", default_unit := "g/dL", ref_default := some (3.5, 5.0) }),
  ("total_protein",
   { aliases := ["Total Protein", "Protein", "Serum Protein", "TP"],
     category := "LIVER", default_unit := "g/dL", ref_default := some (6.0, 8.3) }),
  ("tsh",
   { aliases := ["TSH", "Thyroid Stimulating Hormone", "Thyrotropin"],
     category := "THYROID", default_unit := "mIU/L", ref_default := some (0.4, 4.0) }),
  ("t3",
   { aliases := ["T3", "Triiodothyronine", "Total T3"],
     category := "THYROID", default_unit := "ng/dL", ref_default := some (80, 200) }),
  ("t4",
   { aliases := ["T4", "Thyroxine", "Total T4"],
     category := "THYROID", default_unit := "ug/dL", ref_default := some (4.5, 12.0) }),
  ("free_t4",
   { aliases := ["Free T4", "FT4", "Free Thyroxine"],
     category := "THYROID", default_unit := "ng/dL", ref_default := some (0.8, 1.8) }),
  ("vitamin_d",
   { aliases := ["Vitamin D", "Vit D", "25-OH Vitamin D", "25-Hydroxyvitamin D", "Cholecalciferol"],
     category := "VITAMIN", default_unit := "ng/mL", ref_default := some (30, 100) }),
  ("vitamin_b12",
   { aliases := ["Vitamin B12", "B12", "Cobalamin", "Cyanocobalamin"],
     category := "VITAMIN", default_unit := "pg/mL", ref_default := some (200, 900) }),
  ("folate",
   { aliases := ["Folate", "Folic Acid", "Vitamin B9"],
     category := "VITAMIN", default_unit := "ng/mL", ref_default := some (3.0, 17.0) }),
  ("iron",
   { aliases := ["Iron", "Serum Iron", "Fe"],
     category := "VITAMIN", default_unit := "ug/dL",
     ref_male := some (65, 175), ref_female := some (50, 170), ref_default := some (50, 175) }),
  ("ferritin",
   { aliases := ["Ferritin", "Serum Ferritin"],
     category := "VITAMIN", default_unit := "ng/mL",
     ref_male := some (20, 250), ref_female := some (10, 120), ref_default := some (10, 250) })]

/-- Dict lookup `BIOMARKER_MAPPING[name]`. -/
def lookupBm (name : String) : Option BiomarkerInfo :=
  (BIOMARKER_MAPPING.find? (fun p => p.1 = name)).map (·.2)

/-- `standardize_biomarker_name`: exact key match on the lowered, stripped
name, then first alias match in insertion order, else the cleaned slug. -/
def standardize_biomarker_name (name : String) : String :=
  -- `name_lower = name.lower().strip()`, written out at each use site
  if (BIOMARKER_MAPPING.find? (fun p => p.1 = pyStrip (pyLower name))).isSome then
    pyStrip (pyLower name)
  else
    match BIOMARKER_MAPPING.find? (fun p =>
        p.2.aliases.any (fun a => pyLower a = pyStrip (pyLower name))) with
    | some p => p.1
    | none => cleanedSlug (pyStrip (pyLower name))

/-- `get_biomarker_category`. -/
def get_biomarker_category (standardized_name : String) : String :=
  match lookupBm standardized_name with
  | some info => info.category
  | none => "OTHER"

/-- `ref[gender.lower()]` when `gender.lower() in ref`; the dictionary only
ever holds the keys `male`, `female`, `default`. -/
def refLookupGender (info : BiomarkerInfo) (g : String) : Option (ℚ × ℚ) :=
  if pyLower g = "male" then info.ref_male
  else if pyLower g = "female" then info.ref_female
  else if pyLower g = "default" then info.ref_default
  else none

/-- `get_reference_range`: gender-specific entry if the (truthy) gender is a
key of the reference dict, else the `default` entry, else `(None, None)`. -/
def get_reference_range (standardized_name : String) (gender : Option String) :
    Option ℚ × Option ℚ :=
  match lookupBm standardized_name with
  | none => (none, none)
  | some info =>
    let viaGender : Option (ℚ × ℚ) :=
      match gender with
      | some g => if g ≠ "" then refLookupGender info g else none
      | none => none
    match viaGender with
    | some (a, b) => (some a, some b)
    | none =>
      match info.ref_default with
      | some (a, b) => (some a, some b)
      | none => (none, none)

/-- `get_flag`: the catalog lookup replaces BOTH bounds whenever EITHER
explicit bound is `None` (this mirrors `if ref_min is None or ref_max is
None`), then applies the 0.8 / 1.2 critical thresholds. -/
def get_flag (standardized_name : String) (value : ℚ)
    (ref_min ref_max : Option ℚ) (gender : Option String) : Option String :=
  let resolved : Option ℚ × Option ℚ :=
    if ref_min.isNone || ref_max.isNone then
      get_reference_range standardized_name gender
    else (ref_min, ref_max)
  match resolved with
  | (some mn, some mx) =>
    if value < mn then
      if value < mn * 0.8 then some "CRITICAL_LOW" else some "LOW"
    else if value > mx then
      if value > mx * 1.2 then some "CRITICAL_HIGH" else some "HIGH"
    else none
  | _ => none

/-- The flag thresholds exactly as the specification words them, applied to an
already-resolved pair of bounds; used to compare `get_flag` against the
claimed resolution order. -/
def flagFromBounds (value mn mx : ℚ) : Option String :=
  if value < mn then
    if value < mn * 0.8 then some "CRITICAL_LOW" else some "LOW"
  else if value > mx then
    if value > mx * 1.2 then some "CRITICAL_HIGH" else some "HIGH"
  else none

/-- The fallback slug exactly as the claim words it: the lowercased input with
spaces and hyphens replaced by underscores — with no stripping. -/
def claimSlug (s : String) : String := cleanedSlug (pyLower s)

/-! ### Character-level lemmas -/

theorem charOfNat_toNat {m : Nat} (h1 : m ≤ 122) : (Char.ofNat m).toNat = m := by
  have h : m.isValidChar := Or.inl (by omega)
  simp [Char.ofNat, h, Char.toNat, UInt32.ofNat', Char.ofNatAux, UInt32.toNat,
    BitVec.toNat_ofNatLt]

theorem pyLowerChar_idem (c : Char) : pyLowerChar (pyLowerChar c) = pyLowerChar c := by
  by_cases h : 65 ≤ c.toNat ∧ c.toNat ≤ 90
  · have h1 : pyLowerChar c = Char.ofNat (c.toNat + 32) := by
      unfold pyLowerChar; exact if_pos h
    have hr : (Char.ofNat (c.toNat + 32)).toNat = c.toNat + 32 :=
      charOfNat_toNat (by omega)
    rw [h1]
    unfold pyLowerChar
    simp only [hr]
    exact if_neg (by omega)
  · have h1 : pyLowerChar c = c := by unfold pyLowerChar; exact if_neg h
    rw [h1]; exact h1

theorem pyLower_idem (s : String) : pyLower (pyLower s) = pyLower s := by
  simp [pyLower, List.map_map, Function.comp_def, pyLowerChar_idem]

/-! ### C7 — standardization determinism / case-insensitivity -/

/-- C7 (amended): `standardize_biomarker_name` is case-insensitive
(`Standardize x = Standardize (lower x)`), maps `"HbA1c"` and `"hba1c"` to the
canonical key `"hba1c"`, resolves an exact case-insensitive key match to that
key, else the first case-insensitive alias match to its canonical key, and
otherwise degrades to the cleaned slug of the *stripped* lowercased input
(spaces and hyphens replaced by underscores). -/
theorem c7_standardize_case_insensitive :
    (∀ s, standardize_biomarker_name s = standardize_biomarker_name (pyLower s)) ∧
    standardize_biomarker_name "HbA1c" = "hba1c" ∧
    standardize_biomarker_name "hba1c" = "hba1c" ∧
    (∀ s,
      ((BIOMARKER_MAPPING.find? (fun p => p.1 = pyStrip (pyLower s))).isSome →
        standardize_biomarker_name s = pyStrip (pyLower s)) ∧
      (∀ k, (BIOMARKER_MAPPING.find? (fun p => p.1 = pyStrip (pyLower s))).isSome = false →
        (BIOMARKER_MAPPING.find? (fun p =>
          p.2.aliases.any (fun a => pyLower a = pyStrip (pyLower s)))).map (·.1) = some k →
        standardize_biomarker_name s = k) ∧
      ((BIOMARKER_MAPPING.find? (fun p => p.1 = pyStrip (pyLower s))).isSome = false →
        BIOMARKER_MAPPING.find? (fun p =>
          p.2.aliases.any (fun a => pyLower a = pyStrip (pyLower s))) = none →
        standardize_biomarker_name s = cleanedSlug (pyStrip (pyLower s)))) := by
  refine ⟨fun s => ?_, by decide, by decide,
    fun s => ⟨fun h => ?_, fun k h1 h2 => ?_, fun h1 h2 => ?_⟩⟩
  · unfold standardize_biomarker_name
    rw [pyLower_idem]
  · unfold standardize_biomarker_name
    rw [if_pos h]
  · rcases hf : BIOMARKER_MAPPING.find? (fun p =>
      p.2.aliases.any (fun a => pyLower a = pyStrip (pyLower s))) with _ | p
    · rw [hf] at h2; exact absurd h2 (by simp)
    · rw [hf] at h2
      simp at h2
      unfold standardize_biomarker_name
      rw [if_neg (by simp [h1]), hf]
      exact h2
  · unfold standardize_biomarker_name
    rw [if_neg (by simp [h1]), h2]

/-- Witness for C7: a concrete instantiation of each implication — the exact
key `"hemoglobin"`, the alias `"SGPT"` (canonical `"alt"`), and an unknown
marker degrading to its slug. -/
theorem c7_standardize_case_insensitive_witness :
    standardize_biomarker_name "Hemoglobin" = "hemoglobin" ∧
    standardize_biomarker_name "SGPT" = "alt" ∧
    standardize_biomarker_name "Random Marker-X" = "random_marker_x" := by
  refine ⟨?_, ?_, ?_⟩
  · have h := (c7_standardize_case_insensitive.2.2.2 "Hemoglobin").1 (by decide)
    have e : pyStrip (pyLower "Hemoglobin") = "hemoglobin" := by decide
    rw [e] at h; exact h
  · exact (c7_standardize_case_insensitive.2.2.2 "SGPT").2.1 "alt" (by decide) (by decide)
  · have h := (c7_standardize_case_insensitive.2.2.2 "Random Marker-X").2.2
      (by decide) (by decide)
    have e : cleanedSlug (pyStrip (pyLower "Random Marker-X")) = "random_marker_x" := by decide
    rw [e] at h; exact h

/-- C7 counterexample: the claim's fallback ("the lowercased input with spaces
and hyphens replaced by underscores") disagrees with the code on inputs with
surrounding whitespace, because the code also strips the name first:
`standardize_biomarker_name " x "` is `"x"`, not the claimed `"_x_"`. -/
theorem c7_counterexample :
    standardize_biomarker_name " x " = "x" ∧
    claimSlug " x " = "_x_" ∧
    ("x" : String) ≠ "_x_" :=
  ⟨by decide, by decide, by decide⟩

/-! ### C3 — flag resolution and thresholds -/

theorem reference_range_hemoglobin_default :
    get_reference_range "hemoglobin" none = (some (12.0 : ℚ), some (17.5 : ℚ)) := rfl

theorem reference_range_hemoglobin_male :
    get_reference_range "hemoglobin" (some "male") = (some (13.5 : ℚ), some (17.5 : ℚ)) := rfl

/-- C3 counterexample: with only ONE explicit bound supplied, `get_flag`
discards it and re-resolves BOTH bounds from the catalog (`if ref_min is None
or ref_max is None`).  For hemoglobin with explicit `min = 20` and value `19`,
the claim's resolution (explicit bounds override) would give `LOW` (19 < 20),
but the code answers `HIGH` (19 > 17.5, the catalog default max). -/
theorem c3_counterexample :
    get_flag "hemoglobin" 19 (some 20) none none = some "HIGH" ∧
    flagFromBounds 19 20 17.5 = some "LOW" ∧
    (some "HIGH" : Option String) ≠ some "LOW" := by
  refine ⟨?_, ?_, by decide⟩
  · unfold get_flag
    simp only [Option.isNone_some, Option.isNone_none, Bool.or_true, if_true,
      reference_range_hemoglobin_default]
    norm_num
  · unfold flagFromBounds
    norm_num

/-- C3 (amended): explicit bounds override the catalog only when BOTH are
supplied; when either is missing, `get_flag` resolves both from the catalog
(gender-aware) and applies the 0.8/1.2 critical thresholds; the five
hemoglobin/male examples hold as claimed. -/
theorem c3_flag_resolution :
    (∀ n (v a b : ℚ) g, get_flag n v (some a) (some b) g = flagFromBounds v a b) ∧
    (∀ n (v : ℚ) m M g, m = none ∨ M = none →
      get_flag n v m M g =
        (match get_reference_range n g with
         | (some a, some b) => flagFromBounds v a b
         | _ => none)) ∧
    get_flag "hemoglobin" 14 none none (some "male") = none ∧
    get_flag "hemoglobin" 12.5 none none (some "male") = some "LOW" ∧
    get_flag "hemoglobin" 10 none none (some "male") = some "CRITICAL_LOW" ∧
    get_flag "hemoglobin" 18 none none (some "male") = some "HIGH" ∧
    get_flag "hemoglobin" 22 none none (some "male") = some "CRITICAL_HIGH" := by
  refine ⟨fun n v a b g => ?_, fun n v m M g h => ?_, ?_, ?_, ?_, ?_, ?_⟩
  · unfold get_flag flagFromBounds
    simp only [Option.isNone_some, Bool.or_self, Bool.false_eq_true, if_false]
  · have hc : (m.isNone || M.isNone) = true := by
      rcases h with h | h <;> simp [h]
    unfold get_flag flagFromBounds
    simp only [hc, if_true]
  all_goals
    unfold get_flag
    simp only [Option.isNone_none, Bool.or_self, if_true,
      reference_range_hemoglobin_male]
    try norm_num

/-- Witness for C3: the two resolution clauses applied at concrete inputs —
both bounds explicit (kept), and a missing min (catalog used for both). -/
theorem c3_flag_resolution_witness :
    get_flag "wbc" 3 (some 1) (some 2) none = flagFromBounds 3 1 2 ∧
    get_flag "wbc" 3 none (some 2) none =
      (match get_reference_range "wbc" none with
       | (some a, some b) => flagFromBounds 3 a b
       | _ => none) :=
  ⟨c3_flag_resolution.1 "wbc" 3 1 2 none,
   c3_flag_resolution.2.1 "wbc" 3 none (some 2) none (Or.inl rfl)⟩

/-! ### `app/models/biomarker.py` — readings and trends -/

/-- `BiomarkerReading`: one entry of a trend's history.  `datetime` is
modelled as an `Int` timestamp. -/
structure BiomarkerReading where
  date : Int
  value : ℚ
  unit : String
  flag : Option String
  report_id : String
deriving Repr, DecidableEq

/-- `BiomarkerTrend` (the `updated_at` timestamp, a `datetime.utcnow()`
side effect, is omitted; it carries no information about the readings). -/
structure BiomarkerTrend where
  patient_id : Option String := none
  clinic_id : Option String := none
  biomarker_name : String
  category : String
  readings : List BiomarkerReading
  latest_value : ℚ
  latest_unit : String
  latest_date : Int
  latest_flag : Option String
  trend_direction : String := "stable"
  trend_percent : ℚ := 0
  min_value : ℚ
  max_value : ℚ
  average_value : ℚ
  reading_count : Nat := 0
deriving Repr, DecidableEq

/-- `self.readings.sort(key=lambda r: r.date)` — Python's stable ascending
sort by date; `List.insertionSort` is stable and produces the same list. -/
def sortByDate (rs : List BiomarkerReading) : List BiomarkerReading :=
  rs.insertionSort (fun a b => a.date ≤ b.date)

/-- Python `min(values)`; the empty case is unreachable at every call site
(the list always holds the just-inserted reading). -/
def listMinQ : List ℚ → ℚ
  | [] => 0
  | x :: xs => xs.foldl min x

/-- Python `max(values)`; empty case unreachable as for `listMinQ`. -/
def listMaxQ : List ℚ → ℚ
  | [] => 0
  | x :: xs => xs.foldl max x

/-- The value sequence that `add_reading` recomputes from: the values of the
date-sorted readings after inserting `r`. -/
def insertedValues (rs : List BiomarkerReading) (r : BiomarkerReading) : List ℚ :=
  (sortByDate (rs ++ [r])).map (·.value)

/-- `BiomarkerTrend.add_reading` (models/biomarker.py:107-138): append, sort
by date, set `latest_*` from the *inserted* reading, recompute the statistics
from all readings, and — only when there are at least two readings AND the
date-first value is nonzero — recompute `trend_percent` as
`(last - first)/first * 100` with the ±5 direction thresholds. -/
def addReading (t : BiomarkerTrend) (r : BiomarkerReading) : BiomarkerTrend :=
  let readings := sortByDate (t.readings ++ [r])
  let values := readings.map (·.value)
  let base :=
    { t with
        readings := readings,
        latest_value := r.value, latest_unit := r.unit,
        latest_date := r.date, latest_flag := r.flag,
        min_value := listMinQ values, max_value := listMaxQ values,
        average_value := values.sum / (values.length : ℚ),
        reading_count := readings.length }
  if 2 ≤ values.length then
    let first_value := values.headD 0
    let last_value := values.getLastD 0
    if first_value ≠ 0 then
      let tp := ((last_value - first_value) / first_value) * 100
      { base with
          trend_percent := tp,
          trend_direction :=
            if tp > 5 then "increasing"
            else if tp < -5 then "decreasing"
            else "stable" }
    else base
  else base

/-! ### `update_biomarker_trend` (routers/process.py:365-423), the image path -/

/-- The `Biomarker` document fields consumed by `update_biomarker_trend`. -/
structure BiomarkerDoc where
  patient_id : String
  report_id : String
  clinic_id : String
  name : String
  standardized_name : String
  category : String
  value : ℚ
  unit : String
  reference_min : Option ℚ := none
  reference_max : Option ℚ := none
  flag : Option String := none
  is_abnormal : Bool := false
  test_date : Int
deriving Repr, DecidableEq

/-- The `BiomarkerReading(...)` built from a stored biomarker. -/
def newReadingOf (b : BiomarkerDoc) : BiomarkerReading :=
  { date := b.test_date, value := b.value, unit := b.unit,
    flag := b.flag, report_id := b.report_id }

/-- The `if trend:` branch of `update_biomarker_trend`: unlike `add_reading`,
`trend_percent` is computed from the LAST TWO values
(`values[-1]`, `values[-2]`), with `0` on a zero previous value, and the
direction is the sign of the change (no ±5 thresholds). -/
def updateExistingTrend (t : BiomarkerTrend) (b : BiomarkerDoc) : BiomarkerTrend :=
  let readings := sortByDate (t.readings ++ [newReadingOf b])
  let values := readings.map (·.value)
  let base :=
    { t with
        readings := readings,
        latest_value := b.value, latest_unit := b.unit,
        latest_date := b.test_date, latest_flag := b.flag,
        reading_count := readings.length,
        min_value := listMinQ values, max_value := listMaxQ values,
        average_value := values.sum / (values.length : ℚ) }
  if 2 ≤ values.length then
    let change := values.getLastD 0 - values.dropLast.getLastD 0
    { base with
      trend_percent :=
        if values.dropLast.getLastD 0 ≠ 0 then
          (change / values.dropLast.getLastD 0) * 100
        else 0,
      trend_direction :=
        if change > 0 then "increasing"
        else if change < 0 then "decreasing"
        else "stable" }
  else base

/-- The `else` branch of `update_biomarker_trend`: a fresh trend whose stats
all equal the single reading's value. -/
def createTrendImage (b : BiomarkerDoc) : BiomarkerTrend :=
  { patient_id := some b.patient_id, clinic_id := some b.clinic_id,
    biomarker_name := b.standardized_name, category := b.category,
    readings := [newReadingOf b],
    latest_value := b.value, latest_unit := b.unit,
    latest_date := b.test_date, latest_flag := b.flag,
    reading_count := 1,
    min_value := b.value, max_value := b.value, average_value := b.value,
    trend_direction := "stable", trend_percent := 0 }

/-- `update_biomarker_trend` as one pure upsert over the (optional) stored
trend for the (patient, biomarker) pair. -/
def update_biomarker_trend (existing : Option BiomarkerTrend) (b : BiomarkerDoc) :
    BiomarkerTrend :=
  match existing with
  | some t => updateExistingTrend t b
  | none => createTrendImage b

/-- The fresh-trend constructor in `save_results`
(graphs/lab_extraction/nodes.py:416-429); `trend_direction`/`trend_percent`
fall back to the model defaults, and no `clinic_id` is passed. -/
def createTrendPdf (patient_id biomarker_name category : String)
    (reading : BiomarkerReading) : BiomarkerTrend :=
  { patient_id := some patient_id, clinic_id := none,
    biomarker_name := biomarker_name, category := category,
    readings := [reading],
    latest_value := reading.value, latest_unit := reading.unit,
    latest_date := reading.date, latest_flag := reading.flag,
    min_value := reading.value, max_value := reading.value,
    average_value := reading.value, reading_count := 1 }

/-! #### Projection lemmas for `addReading` / `updateExistingTrend` -/

theorem addReading_readings (t : BiomarkerTrend) (r : BiomarkerReading) :
    (addReading t r).readings = sortByDate (t.readings ++ [r]) := by
  unfold addReading
  dsimp only
  split <;> (try split) <;> rfl

theorem addReading_min (t : BiomarkerTrend) (r : BiomarkerReading) :
    (addReading t r).min_value = listMinQ (insertedValues t.readings r) := by
  unfold addReading insertedValues
  dsimp only
  split <;> (try split) <;> rfl

theorem addReading_max (t : BiomarkerTrend) (r : BiomarkerReading) :
    (addReading t r).max_value = listMaxQ (insertedValues t.readings r) := by
  unfold addReading insertedValues
  dsimp only
  split <;> (try split) <;> rfl

theorem addReading_avg (t : BiomarkerTrend) (r : BiomarkerReading) :
    (addReading t r).average_value =
      (insertedValues t.readings r).sum / ((insertedValues t.readings r).length : ℚ) := by
  unfold addReading insertedValues
  dsimp only
  split <;> (try split) <;> rfl

theorem addReading_count (t : BiomarkerTrend) (r : BiomarkerReading) :
    (addReading t r).reading_count = (sortByDate (t.readings ++ [r])).length := by
  unfold addReading
  dsimp only
  split <;> (try split) <;> rfl

theorem addReading_latest (t : BiomarkerTrend) (r : BiomarkerReading) :
    (addReading t r).latest_value = r.value ∧
    (addReading t r).latest_unit = r.unit ∧
    (addReading t r).latest_date = r.date ∧
    (addReading t r).latest_flag = r.flag := by
  unfold addReading
  dsimp only
  split <;> (try split) <;> exact ⟨rfl, rfl, rfl, rfl⟩

/-! #### Order lemmas for the fold-based min/max -/

theorem foldlMin_le_init (xs : List ℚ) (a : ℚ) : xs.foldl min a ≤ a := by
  induction xs generalizing a with
  | nil => exact le_refl a
  | cons y ys ih => exact le_trans (ih (min a y)) (min_le_left a y)

theorem foldlMin_le_mem (xs : List ℚ) (a x : ℚ) (hx : x ∈ xs) : xs.foldl min a ≤ x := by
  induction xs generalizing a with
  | nil => cases hx
  | cons y ys ih =>
    rcases List.mem_cons.mp hx with h | h
    · subst h
      exact le_trans (foldlMin_le_init ys (min a x)) (min_le_right a x)
    · exact ih (min a y) h

theorem foldlMin_mem (xs : List ℚ) (a : ℚ) : xs.foldl min a = a ∨ xs.foldl min a ∈ xs := by
  induction xs generalizing a with
  | nil => exact Or.inl rfl
  | cons y ys ih =>
    rcases ih (min a y) with h | h
    · rcases min_choice a y with hc | hc
      · exact Or.inl (by rw [List.foldl_cons, h, hc])
      · refine Or.inr (List.mem_cons.mpr (Or.inl ?_))
        rw [List.foldl_cons, h, hc]
    · exact Or.inr (List.mem_cons.mpr (Or.inr h))

theorem foldlMax_init_le (xs : List ℚ) (a : ℚ) : a ≤ xs.foldl max a := by
  induction xs generalizing a with
  | nil => exact le_refl a
  | cons y ys ih => exact le_trans (le_max_left a y) (ih (max a y))

theorem foldlMax_mem_le (xs : List ℚ) (a x : ℚ) (hx : x ∈ xs) : x ≤ xs.foldl max a := by
  induction xs generalizing a with
  | nil => cases hx
  | cons y ys ih =>
    rcases List.mem_cons.mp hx with h | h
    · subst h
      exact le_trans (le_max_right a x) (foldlMax_init_le ys (max a x))
    · exact ih (max a y) h

theorem foldlMax_mem (xs : List ℚ) (a : ℚ) : xs.foldl max a = a ∨ xs.foldl max a ∈ xs := by
  induction xs generalizing a with
  | nil => exact Or.inl rfl
  | cons y ys ih =>
    rcases ih (max a y) with h | h
    · rcases max_choice a y with hc | hc
      · exact Or.inl (by rw [List.foldl_cons, h, hc])
      · refine Or.inr (List.mem_cons.mpr (Or.inl ?_))
        rw [List.foldl_cons, h, hc]
    · exact Or.inr (List.mem_cons.mpr (Or.inr h))

theorem listMinQ_le {l : List ℚ} {x : ℚ} (hx : x ∈ l) : listMinQ l ≤ x := by
  cases l with
  | nil => cases hx
  | cons y ys =>
    rcases List.mem_cons.mp hx with h | h
    · subst h; exact foldlMin_le_init ys x
    · exact foldlMin_le_mem ys y x h

theorem listMinQ_mem {l : List ℚ} (h : l ≠ []) : listMinQ l ∈ l := by
  cases l with
  | nil => exact absurd rfl h
  | cons y ys =>
    rcases foldlMin_mem ys y with h1 | h1
    · exact List.mem_cons.mpr (Or.inl h1)
    · exact List.mem_cons.mpr (Or.inr h1)

theorem le_listMaxQ {l : List ℚ} {x : ℚ} (hx : x ∈ l) : x ≤ listMaxQ l := by
  cases l with
  | nil => cases hx
  | cons y ys =>
    rcases List.mem_cons.mp hx with h | h
    · subst h; exact foldlMax_init_le ys x
    · exact foldlMax_mem_le ys y x h

theorem listMaxQ_mem {l : List ℚ} (h : l ≠ []) : listMaxQ l ∈ l := by
  cases l with
  | nil => exact absurd rfl h
  | cons y ys =>
    rcases foldlMax_mem ys y with h1 | h1
    · exact List.mem_cons.mpr (Or.inl h1)
    · exact List.mem_cons.mpr (Or.inr h1)

/-! #### Sortedness of the date sort -/

theorem sortByDate_perm (rs : List BiomarkerReading) : (sortByDate rs).Perm rs :=
  List.perm_insertionSort _ rs

theorem sortByDate_sorted (rs : List BiomarkerReading) :
    List.Sorted (fun a b : BiomarkerReading => a.date ≤ b.date) (sortByDate rs) := by
  haveI : IsTotal BiomarkerReading (fun a b : BiomarkerReading => a.date ≤ b.date) :=
    ⟨fun a b => le_total a.date b.date⟩
  haveI : IsTrans BiomarkerReading (fun a b : BiomarkerReading => a.date ≤ b.date) :=
    ⟨fun _ _ _ hab hbc => le_trans hab hbc⟩
  exact List.sorted_insertionSort _ rs

/-! ### C1 — trend recomputation on insert -/

/-- C1 (amended): on the PDF path, `add_reading` recomputes `min`, `max`,
`average` over all (date-sorted) readings and, when there are at least two
readings and the date-first value is nonzero, recomputes `trend_percent` as
`(last - first)/first * 100` with direction `increasing` iff `> 5`,
`decreasing` iff `< -5`, else `stable` — leaving `trend_percent` unchanged
when there are fewer than two readings or the first value is zero (no 0%
substitution).  On the image path, `update_biomarker_trend` recomputes the
same statistics but computes `trend_percent` from the LAST TWO readings
(`(values[-1] - values[-2]) / values[-2] * 100`, `0` when `values[-2] = 0`)
and sets the direction by the sign of that change.  Inserting 100, 110, 90 in
date order through `add_reading` yields min=90, max=110, average=100,
trend_percent=-10, direction "decreasing". -/
theorem c1_trend_recompute :
    (∀ (t : BiomarkerTrend) (r : BiomarkerReading),
      (addReading t r).min_value = listMinQ (insertedValues t.readings r) ∧
      (addReading t r).max_value = listMaxQ (insertedValues t.readings r) ∧
      (addReading t r).average_value =
        (insertedValues t.readings r).sum / ((insertedValues t.readings r).length : ℚ) ∧
      (2 ≤ (insertedValues t.readings r).length →
        (insertedValues t.readings r).headD 0 ≠ 0 →
        (addReading t r).trend_percent =
          (((insertedValues t.readings r).getLastD 0 - (insertedValues t.readings r).headD 0) /
            (insertedValues t.readings r).headD 0) * 100 ∧
        (addReading t r).trend_direction =
          (if (((insertedValues t.readings r).getLastD 0 - (insertedValues t.readings r).headD 0) /
              (insertedValues t.readings r).headD 0) * 100 > 5 then "increasing"
           else if (((insertedValues t.readings r).getLastD 0 - (insertedValues t.readings r).headD 0) /
              (insertedValues t.readings r).headD 0) * 100 < -5 then "decreasing"
           else "stable")) ∧
      (¬ 2 ≤ (insertedValues t.readings r).length ∨ (insertedValues t.readings r).headD 0 = 0 →
        (addReading t r).trend_percent = t.trend_percent ∧
        (addReading t r).trend_direction = t.trend_direction)) ∧
    (∀ (t : BiomarkerTrend) (b : BiomarkerDoc),
      2 ≤ (insertedValues t.readings (newReadingOf b)).length →
      (updateExistingTrend t b).trend_percent =
        (if (insertedValues t.readings (newReadingOf b)).dropLast.getLastD 0 ≠ 0 then
          (((insertedValues t.readings (newReadingOf b)).getLastD 0 -
            (insertedValues t.readings (newReadingOf b)).dropLast.getLastD 0) /
            (insertedValues t.readings (newReadingOf b)).dropLast.getLastD 0) * 100
         else 0) ∧
      (updateExistingTrend t b).trend_direction =
        (if (insertedValues t.readings (newReadingOf b)).getLastD 0 -
            (insertedValues t.readings (newReadingOf b)).dropLast.getLastD 0 > 0 then "increasing"
         else if (insertedValues t.readings (newReadingOf b)).getLastD 0 -
            (insertedValues t.readings (newReadingOf b)).dropLast.getLastD 0 < 0 then "decreasing"
         else "stable")) ∧
    ((addReading (addReading
        (createTrendPdf "p1" "glucose" "METABOLIC"
          { date := 1, value := 100, unit := "mg/dL", flag := none, report_id := "r1" })
        { date := 2, value := 110, unit := "mg/dL", flag := none, report_id := "r2" })
        { date := 3, value := 90, unit := "mg/dL", flag := none, report_id := "r3" }).min_value = 90 ∧
     (addReading (addReading
        (createTrendPdf "p1" "glucose" "METABOLIC"
          { date := 1, value := 100, unit := "mg/dL", flag := none, report_id := "r1" })
        { date := 2, value := 110, unit := "mg/dL", flag := none, report_id := "r2" })
        { date := 3, value := 90, unit := "mg/dL", flag := none, report_id := "r3" }).max_value = 110 ∧
     (addReading (addReading
        (createTrendPdf "p1" "glucose" "METABOLIC"
          { date := 1, value := 100, unit := "mg/dL", flag := none, report_id := "r1" })
        { date := 2, value := 110, unit := "mg/dL", flag := none, report_id := "r2" })
        { date := 3, value := 90, unit := "mg/dL", flag := none, report_id := "r3" }).average_value = 100 ∧
     (addReading (addReading
        (createTrendPdf "p1" "glucose" "METABOLIC"
          { date := 1, value := 100, unit := "mg/dL", flag := none, report_id := "r1" })
        { date := 2, value := 110, unit := "mg/dL", flag := none, report_id := "r2" })
        { date := 3, value := 90, unit := "mg/dL", flag := none, report_id := "r3" }).trend_percent = -10 ∧
     (addReading (addReading
        (createTrendPdf "p1" "glucose" "METABOLIC"
          { date := 1, value := 100, unit := "mg/dL", flag := none, report_id := "r1" })
        { date := 2, value := 110, unit := "mg/dL", flag := none, report_id := "r2" })
        { date := 3, value := 90, unit := "mg/dL", flag := none, report_id := "r3" }).trend_direction = "decreasing") := by
  refine ⟨fun t r => ⟨addReading_min t r, addReading_max t r, addReading_avg t r, ?_, ?_⟩,
    fun t b h => ?_, ?_⟩
  · intro h2 h0
    simp only [insertedValues] at h2 h0 ⊢
    unfold addReading
    dsimp only
    rw [if_pos h2, if_pos h0]
    exact ⟨rfl, rfl⟩
  · intro h
    unfold addReading
    dsimp only
    rcases h with h | h
    · simp only [insertedValues] at h
      rw [if_neg h]
      exact ⟨rfl, rfl⟩
    · simp only [insertedValues] at h
      split
      · rw [if_neg (by simpa using h)]
        exact ⟨rfl, rfl⟩
      · exact ⟨rfl, rfl⟩
  · simp only [insertedValues] at h ⊢
    unfold updateExistingTrend
    dsimp only
    rw [if_pos h]
    exact ⟨rfl, rfl⟩
  · norm_num [addReading, createTrendPdf, sortByDate, List.insertionSort,
      List.orderedInsert, listMinQ, listMaxQ]

/-- Witness for C1: the hypotheses of the universal clauses discharged at a
two-reading trend (values 100 then 110). -/
theorem c1_trend_recompute_witness :
    (addReading
      (createTrendPdf "p1" "glucose" "METABOLIC"
        { date := 1, value := 100, unit := "mg/dL", flag := none, report_id := "r1" })
      { date := 2, value := 110, unit := "mg/dL", flag := none, report_id := "r2" }).trend_percent =
      (((insertedValues (createTrendPdf "p1" "glucose" "METABOLIC"
          { date := 1, value := 100, unit := "mg/dL", flag := none, report_id := "r1" }).readings
          { date := 2, value := 110, unit := "mg/dL", flag := none, report_id := "r2" }).getLastD 0 -
        (insertedValues (createTrendPdf "p1" "glucose" "METABOLIC"
          { date := 1, value := 100, unit := "mg/dL", flag := none, report_id := "r1" }).readings
          { date := 2, value := 110, unit := "mg/dL", flag := none, report_id := "r2" }).headD 0) /
        (insertedValues (createTrendPdf "p1" "glucose" "METABOLIC"
          { date := 1, value := 100, unit := "mg/dL", flag := none, report_id := "r1" }).readings
          { date := 2, value := 110, unit := "mg/dL", flag := none, report_id := "r2" }).headD 0) * 100 :=
  (((c1_trend_recompute.1
    (createTrendPdf "p1" "glucose" "METABOLIC"
      { date := 1, value := 100, unit := "mg/dL", flag := none, report_id := "r1" })
    { date := 2, value := 110, unit := "mg/dL", flag := none, report_id := "r2" }).2.2.2.1
    (by decide) (by decide)).1)

/-- C1 counterexample: on the image path, inserting 100, 110, 90 (in date
order) gives `trend_percent = (90 - 110)/110 * 100 = -200/11 ≈ -18.18`, not
the claimed `(90 - 100)/100 * 100 = -10`: `update_biomarker_trend` uses the
last two readings, not first and last. -/
theorem c1_counterexample :
    (update_biomarker_trend (some (update_biomarker_trend (some
        (update_biomarker_trend none
          { patient_id := "p1", report_id := "r1", clinic_id := "c1", name := "Glucose",
            standardized_name := "glucose", category := "METABOLIC",
            value := 100, unit := "mg/dL", test_date := 1 }))
          { patient_id := "p1", report_id := "r2", clinic_id := "c1", name := "Glucose",
            standardized_name := "glucose", category := "METABOLIC",
            value := 110, unit := "mg/dL", test_date := 2 }))
          { patient_id := "p1", report_id := "r3", clinic_id := "c1", name := "Glucose",
            standardized_name := "glucose", category := "METABOLIC",
            value := 90, unit := "mg/dL", test_date := 3 }).trend_percent = -200 / 11 ∧
    (-200 / 11 : ℚ) ≠ -10 := by
  constructor
  · norm_num [update_biomarker_trend, updateExistingTrend, createTrendImage,
      newReadingOf, sortByDate, List.insertionSort, List.orderedInsert]
  · norm_num

/-! ### C2 — per-insert invariants of `add_reading` -/

/-- C2 (amended): after every `add_reading` call the readings list is sorted
by date and is a permutation of the previous readings plus the new one;
`reading_count`, `min_value`, `max_value` and `average_value` are recomputed
from the full list (the minimum/maximum are attained and bound every reading,
and `average * count = sum`); but the `latest_*` fields are those of the
*just-inserted* reading — they coincide with the date-latest reading only when
readings arrive in date order. -/
theorem c2_add_reading_consistency :
    ∀ (t : BiomarkerTrend) (r : BiomarkerReading),
      List.Sorted (fun a b : BiomarkerReading => a.date ≤ b.date) (addReading t r).readings ∧
      (addReading t r).readings.Perm (r :: t.readings) ∧
      (addReading t r).reading_count = (addReading t r).readings.length ∧
      (addReading t r).average_value * ((addReading t r).readings.length : ℚ) =
        ((addReading t r).readings.map (·.value)).sum ∧
      (∀ x, x ∈ (addReading t r).readings →
        (addReading t r).min_value ≤ x.value ∧ x.value ≤ (addReading t r).max_value) ∧
      (addReading t r).min_value ∈ (addReading t r).readings.map (·.value) ∧
      (addReading t r).max_value ∈ (addReading t r).readings.map (·.value) ∧
      (addReading t r).latest_value = r.value ∧ (addReading t r).latest_unit = r.unit ∧
      (addReading t r).latest_date = r.date ∧ (addReading t r).latest_flag = r.flag := by
  intro t r
  have hre := addReading_readings t r
  have hperm : (addReading t r).readings.Perm (r :: t.readings) := by
    rw [hre]
    exact (sortByDate_perm _).trans (List.perm_append_singleton r t.readings)
  have hne : (addReading t r).readings ≠ [] := by
    intro h
    have := hperm.length_eq
    rw [h] at this
    simp at this
  have hmapne : (addReading t r).readings.map (·.value) ≠ [] := by
    simpa using hne
  have hlen : ((addReading t r).readings.length : ℚ) ≠ 0 := by
    have h0 : (addReading t r).readings.length ≠ 0 := by
      intro h
      exact hne (List.length_eq_zero.mp h)
    exact_mod_cast h0
  refine ⟨?_, hperm, ?_, ?_, ?_, ?_, ?_, (addReading_latest t r).1,
    (addReading_latest t r).2.1, (addReading_latest t r).2.2.1, (addReading_latest t r).2.2.2⟩
  · rw [hre]; exact sortByDate_sorted _
  · rw [addReading_count t r, hre]
  · rw [addReading_avg t r]
    have hiv : (insertedValues t.readings r) = (addReading t r).readings.map (·.value) := by
      rw [hre]; rfl
    rw [hiv, List.length_map]
    exact div_mul_cancel₀ _ hlen
  · intro x hx
    have hv : x.value ∈ (addReading t r).readings.map (·.value) :=
      List.mem_map.mpr ⟨x, hx, rfl⟩
    have hmin := addReading_min t r
    have hmax := addReading_max t r
    have hiv : insertedValues t.readings r = (addReading t r).readings.map (·.value) := by
      rw [hre]; rfl
    rw [hiv] at hmin hmax
    exact ⟨hmin ▸ listMinQ_le hv, hmax ▸ le_listMaxQ hv⟩
  · have hmin := addReading_min t r
    have hiv : insertedValues t.readings r = (addReading t r).readings.map (·.value) := by
      rw [hre]; rfl
    rw [hiv] at hmin
    exact hmin ▸ listMinQ_mem hmapne
  · have hmax := addReading_max t r
    have hiv : insertedValues t.readings r = (addReading t r).readings.map (·.value) := by
      rw [hre]; rfl
    rw [hiv] at hmax
    exact hmax ▸ listMaxQ_mem hmapne

/-- Witness for C2: the bound clause applied to a concrete reading of a
concrete two-reading trend. -/
theorem c2_add_reading_consistency_witness :
    (addReading
      (createTrendPdf "p1" "glucose" "METABOLIC"
        { date := 1, value := 100, unit := "mg/dL", flag := none, report_id := "r1" })
      { date := 2, value := 110, unit := "mg/dL", flag := none, report_id := "r2" }).min_value ≤
      (100 : ℚ) ∧
    (100 : ℚ) ≤ (addReading
      (createTrendPdf "p1" "glucose" "METABOLIC"
        { date := 1, value := 100, unit := "mg/dL", flag := none, report_id := "r1" })
      { date := 2, value := 110, unit := "mg/dL", flag := none, report_id := "r2" }).max_value :=
  (c2_add_reading_consistency
    (createTrendPdf "p1" "glucose" "METABOLIC"
      { date := 1, value := 100, unit := "mg/dL", flag := none, report_id := "r1" })
    { date := 2, value := 110, unit := "mg/dL", flag := none, report_id := "r2" }).2.2.2.2.1
    { date := 1, value := 100, unit := "mg/dL", flag := none, report_id := "r1" }
    (by decide)

/-- C2 counterexample: a reading that arrives out of date order makes the
`latest_*` fields diverge from the date-latest reading: after inserting
(date 1, value 5) into a trend whose only reading is (date 2, value 1), the
sorted list ends with the date-2 reading (value 1), yet `latest_date = 1` and
`latest_value = 5` — the claim's "latest_value … equal those of the
date-latest reading" fails. -/
theorem c2_counterexample :
    (addReading
      (createTrendPdf "p1" "glucose" "METABOLIC"
        { date := 2, value := 1, unit := "u", flag := none, report_id := "r1" })
      { date := 1, value := 5, unit := "u", flag := none, report_id := "r2" }).readings.getLast? =
      some { date := 2, value := 1, unit := "u", flag := none, report_id := "r1" } ∧
    (addReading
      (createTrendPdf "p1" "glucose" "METABOLIC"
        { date := 2, value := 1, unit := "u", flag := none, report_id := "r1" })
      { date := 1, value := 5, unit := "u", flag := none, report_id := "r2" }).latest_date = 1 ∧
    (addReading
      (createTrendPdf "p1" "glucose" "METABOLIC"
        { date := 2, value := 1, unit := "u", flag := none, report_id := "r1" })
      { date := 1, value := 5, unit := "u", flag := none, report_id := "r2" }).latest_value = 5 ∧
    (1 : Int) ≠ 2 ∧ (5 : ℚ) ≠ 1 := by
  refine ⟨?_, ?_, ?_, by decide, by norm_num⟩
  · rw [addReading_readings]
    norm_num [sortByDate, List.insertionSort, List.orderedInsert, createTrendPdf]
  · exact (addReading_latest _ _).2.2.1
  · exact (addReading_latest _ _).1

/-! ### `app/services/vision_service.py` — page results and merging -/

/-- A Python value appearing in a vision biomarker's `value` field: the model
may emit a number or a string. -/
inductive PyVal where
  | num (q : ℚ)
  | str (s : String)
deriving Repr, DecidableEq

/-- One biomarker candidate as parsed from the vision model's JSON
(every field is a dict `get`, hence optional). -/
structure VisionBiomarker where
  name : Option String := none
  value : Option PyVal := none
  unit : Option String := none
  reference_min : Option ℚ := none
  reference_max : Option ℚ := none
  flag : Option String := none
deriving Repr, DecidableEq

/-- One page's successful vision extraction. -/
structure VisionPage where
  lab_name : Option String := none
  report_date : Option String := none
  report_type : Option String := none
  patient_info : List (String × String) := []
  biomarkers : List VisionBiomarker := []
deriving Repr, DecidableEq

/-- The outcome of `extract_from_image` for one page: any result dict
containing an `"error"` key, or a parsed page. -/
inductive PageResult where
  | err (msg : String)
  | ok (page : VisionPage)
deriving Repr, DecidableEq

/-- The accumulator of `extract_from_multiple_images`
(`merged_result`, initialised with `None`/`"OTHER"`/empty). -/
structure MergedVision where
  lab_name : Option String := none
  report_date : Option String := none
  patient_info : List (String × String) := []
  report_type : String := "OTHER"
  biomarkers : List VisionBiomarker := []
deriving Repr, DecidableEq

/-- Python `dict` upsert of one key: replace in place if present, else append
(dicts keep first-insertion key order). -/
def upsertKey (d : List (String × String)) (k v : String) : List (String × String) :=
  if d.any (·.1 = k) then d.map (fun p => if p.1 = k then (k, v) else p)
  else d ++ [(k, v)]

/-- Python `dict.update`. -/
def updateAList (d u : List (String × String)) : List (String × String) :=
  u.foldl (fun acc p => upsertKey acc p.1 p.2) d

/-- Merging one page into the accumulator (the loop body of
`extract_from_multiple_images`): error pages contribute nothing; scalar
fields are overwritten only by truthy values (`report_type` also not by
`"OTHER"`); biomarkers are concatenated. -/
def mergeStep (m : MergedVision) (p : PageResult) : MergedVision :=
  match p with
  | .err _ => m
  | .ok r =>
    let m1 := if truthyS r.lab_name then { m with lab_name := r.lab_name } else m
    let m2 := if truthyS r.report_date then { m1 with report_date := r.report_date } else m1
    let m3 := if r.patient_info ≠ [] then
        { m2 with patient_info := updateAList m2.patient_info r.patient_info } else m2
    let m4 := if truthyS r.report_type ∧ r.report_type ≠ some "OTHER" then
        { m3 with report_type := r.report_type.getD "OTHER" } else m3
    if r.biomarkers ≠ [] then { m4 with biomarkers := m4.biomarkers ++ r.biomarkers } else m4

/-- The dedup key: `bio.get("name", "").lower()`. -/
def bioKey (b : VisionBiomarker) : String := pyLower (b.name.getD "")

/-- One step of the `seen` dict build: `seen[name] = bio` (replace in place if
the key exists, else append). -/
def seenInsert (acc : List (String × VisionBiomarker)) (b : VisionBiomarker) :
    List (String × VisionBiomarker) :=
  if acc.any (·.1 = bioKey b) then
    acc.map (fun p => if p.1 = bioKey b then (bioKey b, b) else p)
  else acc ++ [(bioKey b, b)]

/-- The `seen` dict after the whole dedup pass. -/
def seenFold (bs : List VisionBiomarker) : List (String × VisionBiomarker) :=
  bs.foldl seenInsert []

/-- `list(seen.values())`: one biomarker per case-insensitive name, the last
occurrence winning, keys in first-occurrence order. -/
def dedupLast (bs : List VisionBiomarker) : List VisionBiomarker :=
  (seenFold bs).map (·.2)

/-- `extract_from_multiple_images`, as a pure function of the per-page
results. -/
def extract_from_multiple_images (pages : List PageResult) : MergedVision :=
  let merged := pages.foldl mergeStep {}
  { merged with biomarkers := dedupLast merged.biomarkers }

/-- The pages that did not report an error. -/
def okPages (pages : List PageResult) : List VisionPage :=
  pages.filterMap (fun p => match p with | .ok r => some r | .err _ => none)

/-! #### Last-write-wins characterisations of the merge -/

/-- The `lab_name` of the last error-free page whose `lab_name` is truthy. -/
def lastLabName : List PageResult → Option String
  | [] => none
  | .err _ :: ps => lastLabName ps
  | .ok r :: ps =>
    (lastLabName ps).orElse (fun _ => if truthyS r.lab_name then r.lab_name else none)

/-- The `report_date` of the last error-free page whose `report_date` is
truthy. -/
def lastReportDate : List PageResult → Option String
  | [] => none
  | .err _ :: ps => lastReportDate ps
  | .ok r :: ps =>
    (lastReportDate ps).orElse (fun _ => if truthyS r.report_date then r.report_date else none)

/-- The `report_type` of the last error-free page whose `report_type` is
truthy and not `"OTHER"`. -/
def lastReportType? : List PageResult → Option String
  | [] => none
  | .err _ :: ps => lastReportType? ps
  | .ok r :: ps =>
    (lastReportType? ps).orElse (fun _ =>
      if truthyS r.report_type ∧ r.report_type ≠ some "OTHER"
      then some (r.report_type.getD "OTHER") else none)

/-- All biomarker candidates of the error-free pages, in page order. -/
def allVisionBiomarkers : List PageResult → List VisionBiomarker
  | [] => []
  | .err _ :: ps => allVisionBiomarkers ps
  | .ok r :: ps => r.biomarkers ++ allVisionBiomarkers ps

theorem mergeStep_lab_name (m : MergedVision) (p : PageResult) :
    (mergeStep m p).lab_name =
      (match p with
       | .err _ => m.lab_name
       | .ok r => if truthyS r.lab_name then r.lab_name else m.lab_name) := by
  cases p with
  | err e => rfl
  | ok r =>
    unfold mergeStep
    dsimp only
    repeat' split
    all_goals rfl

theorem mergeStep_report_date (m : MergedVision) (p : PageResult) :
    (mergeStep m p).report_date =
      (match p with
       | .err _ => m.report_date
       | .ok r => if truthyS r.report_date then r.report_date else m.report_date) := by
  cases p with
  | err e => rfl
  | ok r =>
    unfold mergeStep
    dsimp only
    repeat' split
    all_goals rfl

theorem mergeStep_report_type (m : MergedVision) (p : PageResult) :
    (mergeStep m p).report_type =
      (match p with
       | .err _ => m.report_type
       | .ok r => if truthyS r.report_type ∧ r.report_type ≠ some "OTHER"
           then r.report_type.getD "OTHER" else m.report_type) := by
  cases p with
  | err e => rfl
  | ok r =>
    unfold mergeStep
    dsimp only
    repeat' split
    all_goals rfl

theorem mergeStep_biomarkers (m : MergedVision) (p : PageResult) :
    (mergeStep m p).biomarkers =
      (match p with
       | .err _ => m.biomarkers
       | .ok r => m.biomarkers ++ r.biomarkers) := by
  cases p with
  | err e => rfl
  | ok r =>
    unfold mergeStep
    dsimp only
    split
    · repeat' split
      all_goals rfl
    · rename_i hb
      have hb : r.biomarkers = [] := by
        by_contra hc
        exact hb hc
      rw [hb, List.append_nil]
      repeat' split
      all_goals rfl

theorem foldl_merge_lab_name (pages : List PageResult) :
    ∀ m, (pages.foldl mergeStep m).lab_name =
      (match lastLabName pages with
       | some v => some v
       | none => m.lab_name) := by
  induction pages with
  | nil => intro m; rfl
  | cons p ps ih =>
    intro m
    rw [List.foldl_cons, ih (mergeStep m p), mergeStep_lab_name]
    rcases hl : lastLabName ps with _ | v
    · cases p with
      | err e => simp [lastLabName, hl, Option.orElse]
      | ok r =>
        simp only [lastLabName, hl, Option.orElse]
        split
        · rename_i ht
          rcases hrl : r.lab_name with _ | s
          · rw [hrl] at ht; simp [truthyS] at ht
          · rfl
        · rfl
    · cases p with
      | err e => simp [lastLabName, hl, Option.orElse]
      | ok r => simp [lastLabName, hl, Option.orElse]

theorem foldl_merge_report_date (pages : List PageResult) :
    ∀ m, (pages.foldl mergeStep m).report_date =
      (match lastReportDate pages with
       | some v => some v
       | none => m.report_date) := by
  induction pages with
  | nil => intro m; rfl
  | cons p ps ih =>
    intro m
    rw [List.foldl_cons, ih (mergeStep m p), mergeStep_report_date]
    rcases hl : lastReportDate ps with _ | v
    · cases p with
      | err e => simp [lastReportDate, hl, Option.orElse]
      | ok r =>
        simp only [lastReportDate, hl, Option.orElse]
        split
        · rename_i ht
          rcases hrl : r.report_date with _ | s
          · rw [hrl] at ht; simp [truthyS] at ht
          · rfl
        · rfl
    · cases p with
      | err e => simp [lastReportDate, hl, Option.orElse]
      | ok r => simp [lastReportDate, hl, Option.orElse]

theorem foldl_merge_report_type (pages : List PageResult) :
    ∀ m, (pages.foldl mergeStep m).report_type =
      (match lastReportType? pages with
       | some v => v
       | none => m.report_type) := by
  induction pages with
  | nil => intro m; rfl
  | cons p ps ih =>
    intro m
    rw [List.foldl_cons, ih (mergeStep m p), mergeStep_report_type]
    rcases hl : lastReportType? ps with _ | v
    · cases p with
      | err e => simp [lastReportType?, hl, Option.orElse]
      | ok r =>
        simp only [lastReportType?, hl, Option.orElse]
        split
        · rfl
        · rfl
    · cases p with
      | err e => simp [lastReportType?, hl, Option.orElse]
      | ok r => simp [lastReportType?, hl, Option.orElse]

theorem foldl_merge_biomarkers (pages : List PageResult) :
    ∀ m, (pages.foldl mergeStep m).biomarkers =
      m.biomarkers ++ allVisionBiomarkers pages := by
  induction pages with
  | nil => intro m; simp [allVisionBiomarkers]
  | cons p ps ih =>
    intro m
    rw [List.foldl_cons, ih (mergeStep m p), mergeStep_biomarkers]
    cases p with
    | err e => rfl
    | ok r =>
      dsimp only
      rw [List.append_assoc]
      rfl

/-! #### The dedup pass -/

theorem seenInsert_keys (acc : List (String × VisionBiomarker)) (b : VisionBiomarker) :
    (seenInsert acc b).map (·.1) =
      if acc.any (·.1 = bioKey b) then acc.map (·.1)
      else acc.map (·.1) ++ [bioKey b] := by
  by_cases h : (acc.any (·.1 = bioKey b)) = true
  · rw [if_pos h]
    unfold seenInsert
    rw [if_pos h, List.map_map]
    refine List.map_congr_left (fun p _ => ?_)
    by_cases hp : p.1 = bioKey b <;> simp [hp]
  · rw [if_neg h]
    unfold seenInsert
    rw [if_neg h, List.map_append]
    rfl

theorem seenFold_inv :
    ∀ (bs : List VisionBiomarker) (processed : List VisionBiomarker)
      (acc : List (String × VisionBiomarker)),
      (∀ q ∈ acc, bioKey q.2 = q.1) →
      ((acc.map (·.1)).Nodup) →
      (∀ k, k ∈ acc.map (·.1) ↔ ∃ b ∈ processed, bioKey b = k) →
      (∀ q ∈ acc, (processed.filter (fun x => bioKey x = q.1)).getLast? = some q.2) →
      (∀ q ∈ bs.foldl seenInsert acc, bioKey q.2 = q.1) ∧
      (((bs.foldl seenInsert acc).map (·.1)).Nodup) ∧
      (∀ k, k ∈ (bs.foldl seenInsert acc).map (·.1) ↔ ∃ b ∈ processed ++ bs, bioKey b = k) ∧
      (∀ q ∈ bs.foldl seenInsert acc,
        ((processed ++ bs).filter (fun x => bioKey x = q.1)).getLast? = some q.2) := by
  intro bs
  induction bs with
  | nil =>
    intro processed acc H1 H2 H3 H4
    refine ⟨H1, H2, ?_, ?_⟩
    · simpa using H3
    · simpa using H4
  | cons b bs ih =>
    intro processed acc H1 H2 H3 H4
    have key_mem_iff : (acc.any (·.1 = bioKey b)) = true ↔ bioKey b ∈ acc.map (·.1) := by
      rw [List.any_eq_true]
      constructor
      · rintro ⟨p, hp, hpk⟩
        exact List.mem_map.mpr ⟨p, hp, of_decide_eq_true hpk⟩
      · intro hm
        rcases List.mem_map.mp hm with ⟨p, hp, hpk⟩
        exact ⟨p, hp, decide_eq_true hpk⟩
    have S1 : ∀ q ∈ seenInsert acc b, bioKey q.2 = q.1 := by
      intro q hq
      unfold seenInsert at hq
      split at hq
      · rcases List.mem_map.mp hq with ⟨p, hp, hfp⟩
        by_cases hk : p.1 = bioKey b
        · rw [if_pos hk] at hfp
          rw [← hfp]
        · rw [if_neg hk] at hfp
          rw [← hfp]; exact H1 p hp
      · rcases List.mem_append.mp hq with h | h
        · exact H1 q h
        · rw [List.mem_singleton.mp h]
    have S2 : ((seenInsert acc b).map (·.1)).Nodup := by
      rw [seenInsert_keys]
      by_cases h : (acc.any (·.1 = bioKey b)) = true
      · rw [if_pos h]; exact H2
      · rw [if_neg h]
        refine List.Nodup.append H2 (List.nodup_singleton _) ?_
        intro k hk hk2
        rw [List.mem_singleton.mp hk2] at hk
        exact h (key_mem_iff.mpr hk)
    have S3 : ∀ k, k ∈ (seenInsert acc b).map (·.1) ↔
        ∃ x ∈ processed ++ [b], bioKey x = k := by
      intro k
      rw [seenInsert_keys]
      by_cases h : (acc.any (·.1 = bioKey b)) = true
      · rw [if_pos h]
        constructor
        · intro hk
          rcases (H3 k).mp hk with ⟨x, hx, hxk⟩
          exact ⟨x, List.mem_append.mpr (Or.inl hx), hxk⟩
        · rintro ⟨x, hx, hxk⟩
          rcases List.mem_append.mp hx with hx1 | hx1
          · exact (H3 k).mpr ⟨x, hx1, hxk⟩
          · rw [List.mem_singleton.mp hx1] at hxk
            rw [← hxk]
            exact key_mem_iff.mp h
      · rw [if_neg h]
        constructor
        · intro hk
          rcases List.mem_append.mp hk with h1 | h1
          · rcases (H3 k).mp h1 with ⟨x, hx, hxk⟩
            exact ⟨x, List.mem_append.mpr (Or.inl hx), hxk⟩
          · exact ⟨b, List.mem_append.mpr (Or.inr (List.mem_singleton.mpr rfl)),
              (List.mem_singleton.mp h1).symm⟩
        · rintro ⟨x, hx, hxk⟩
          rcases List.mem_append.mp hx with hx1 | hx1
          · exact List.mem_append.mpr (Or.inl ((H3 k).mpr ⟨x, hx1, hxk⟩))
          · rw [List.mem_singleton.mp hx1] at hxk
            rw [← hxk]
            exact List.mem_append.mpr (Or.inr (List.mem_singleton.mpr rfl))
    have S4 : ∀ q ∈ seenInsert acc b,
        (((processed ++ [b]).filter (fun x => bioKey x = q.1)).getLast? = some q.2) := by
      intro q hq
      rw [List.filter_append]
      by_cases hk : q.1 = bioKey b
      · have hq2 : q.2 = b := by
          unfold seenInsert at hq
          split at hq
          · rcases List.mem_map.mp hq with ⟨p, hp, hfp⟩
            by_cases hpk : p.1 = bioKey b
            · rw [if_pos hpk] at hfp
              rw [← hfp]
            · rw [if_neg hpk] at hfp
              rw [← hfp] at hk
              exact absurd hk hpk
          · rename_i hany
            rcases List.mem_append.mp hq with h | h
            · have hmem : q.1 ∈ acc.map (·.1) := List.mem_map.mpr ⟨q, h, rfl⟩
              rw [hk] at hmem
              exact absurd (key_mem_iff.mpr hmem) hany
            · rw [List.mem_singleton.mp h]
        have hfb : List.filter (fun x => decide (bioKey x = q.1)) [b] = [b] := by
          simp [List.filter, hk]
        rw [hfb, hq2, List.getLast?_concat]
      · have hdec : (decide (bioKey b = q.1)) = false := by
          simp only [decide_eq_false_iff_not]
          intro hc
          exact hk hc.symm
        have hfb : List.filter (fun x => decide (bioKey x = q.1)) [b] = [] := by
          simp [List.filter, hdec]
        have hqacc : q ∈ acc := by
          unfold seenInsert at hq
          split at hq
          · rcases List.mem_map.mp hq with ⟨p, hp, hfp⟩
            by_cases hpk : p.1 = bioKey b
            · rw [if_pos hpk] at hfp
              rw [← hfp] at hk
              simp at hk
            · rw [if_neg hpk] at hfp
              rw [← hfp]; exact hp
          · rcases List.mem_append.mp hq with h | h
            · exact h
            · rw [List.mem_singleton.mp h] at hk
              simp at hk
        rw [hfb, List.append_nil]
        exact H4 q hqacc
    have hres := ih (processed ++ [b]) (seenInsert acc b) S1 S2 S3 S4
    simpa [List.append_assoc] using hres

/-! ### C9 — multi-image merging -/

/-- C9: `extract_from_multiple_images` merges per-page results so that the
scalar fields keep the last truthy page value (`lab_name`, `report_date`;
`report_type` only from non-`"OTHER"` values, defaulting to `"OTHER"`), error
pages contribute nothing (all characterisations only range over error-free
pages), and the merged biomarker list holds exactly one entry per
case-insensitive name — the last occurrence, in page order, of that name. -/
theorem c9_multi_image_merge :
    ∀ pages : List PageResult,
      (extract_from_multiple_images pages).lab_name = lastLabName pages ∧
      (extract_from_multiple_images pages).report_date = lastReportDate pages ∧
      (extract_from_multiple_images pages).report_type = (lastReportType? pages).getD "OTHER" ∧
      ((extract_from_multiple_images pages).biomarkers.map bioKey).Nodup ∧
      (∀ b ∈ (extract_from_multiple_images pages).biomarkers,
        ((allVisionBiomarkers pages).filter (fun x => bioKey x = bioKey b)).getLast? = some b) ∧
      (∀ k, (∃ b ∈ allVisionBiomarkers pages, bioKey b = k) ↔
        ∃ b ∈ (extract_from_multiple_images pages).biomarkers, bioKey b = k) := by
  intro pages
  have hinv := seenFold_inv (allVisionBiomarkers pages) [] []
    (by simp) (by simp) (by simp) (by simp)
  rcases hinv with ⟨I1, I2, I3, I4⟩
  have hbio : (extract_from_multiple_images pages).biomarkers =
      (seenFold (allVisionBiomarkers pages)).map (·.2) := by
    unfold extract_from_multiple_images dedupLast
    dsimp only
    rw [foldl_merge_biomarkers]
    rfl
  refine ⟨?_, ?_, ?_, ?_, ?_, ?_⟩
  · unfold extract_from_multiple_images
    dsimp only
    rw [foldl_merge_lab_name]
    rcases lastLabName pages <;> rfl
  · unfold extract_from_multiple_images
    dsimp only
    rw [foldl_merge_report_date]
    rcases lastReportDate pages <;> rfl
  · unfold extract_from_multiple_images
    dsimp only
    rw [foldl_merge_report_type]
    rcases lastReportType? pages <;> rfl
  · rw [hbio, List.map_map]
    have hmk : ((seenFold (allVisionBiomarkers pages)).map (bioKey ·.2)) =
        (seenFold (allVisionBiomarkers pages)).map (·.1) :=
      List.map_congr_left (fun q hq => I1 q hq)
    have : (bioKey ∘ (·.2) : String × VisionBiomarker → String) = (bioKey ·.2) := rfl
    rw [this, hmk]
    exact I2
  · intro b hb
    rw [hbio] at hb
    rcases List.mem_map.mp hb with ⟨q, hq, hq2⟩
    have hkey : bioKey b = q.1 := by rw [← hq2]; exact I1 q hq
    have := I4 q hq
    rw [List.nil_append] at this
    rw [hkey, ← hq2]
    exact this
  · intro k
    constructor
    · intro hex
      have : k ∈ (seenFold (allVisionBiomarkers pages)).map (·.1) :=
        (I3 k).mpr (by simpa using hex)
      rcases List.mem_map.mp this with ⟨q, hq, hq1⟩
      refine ⟨q.2, ?_, ?_⟩
      · rw [hbio]
        exact List.mem_map.mpr ⟨q, hq, rfl⟩
      · rw [I1 q hq, hq1]
    · rintro ⟨b, hb, hbk⟩
      rw [hbio] at hb
      rcases List.mem_map.mp hb with ⟨q, hq, hq2⟩
      have : q.1 ∈ (seenFold (allVisionBiomarkers pages)).map (·.1) :=
        List.mem_map.mpr ⟨q, hq, rfl⟩
      have hex := (I3 q.1).mp this
      rw [List.nil_append] at hex
      have hqk : q.1 = k := by
        rw [← hbk, ← hq2]
        exact (I1 q hq).symm
      rw [← hqk]
      exact hex

/-- Witness for C9: the dedup clause at a concrete two-page document in which
page 2 re-reports "Hemoglobin" — the merged entry is page 2's reading. -/
theorem c9_multi_image_merge_witness :
    ((allVisionBiomarkers
        [PageResult.ok { biomarkers := [{ name := some "Hemoglobin", value := some (PyVal.num 14) }] },
         PageResult.err "bad page",
         PageResult.ok { biomarkers := [{ name := some "HEMOGLOBIN", value := some (PyVal.num 15) }] }]).filter
      (fun x => bioKey x = bioKey { name := some "HEMOGLOBIN", value := some (PyVal.num 15) })).getLast? =
      some { name := some "HEMOGLOBIN", value := some (PyVal.num 15) } :=
  (c9_multi_image_merge
    [PageResult.ok { biomarkers := [{ name := some "Hemoglobin", value := some (PyVal.num 14) }] },
     PageResult.err "bad page",
     PageResult.ok { biomarkers := [{ name := some "HEMOGLOBIN", value := some (PyVal.num 15) }] }]).2.2.2.2.1
    { name := some "HEMOGLOBIN", value := some (PyVal.num 15) }
    (by decide)

/-! ### The two per-candidate standardization paths (C10) -/

/-- A standardized biomarker entry (the dict built by both paths). -/
structure StdBiomarker where
  name : String
  standardized_name : String
  category : String
  value : ℚ
  unit : String
  reference_min : Option ℚ := none
  reference_max : Option ℚ := none
  flag : Option String := none
  is_abnormal : Bool := false
deriving Repr, DecidableEq

/-- Python truthiness of an optional number (`None` and `0` are falsy). -/
def truthyQ : Option ℚ → Bool
  | none => false
  | some q => q ≠ 0

/-- Modelled from the spec: the f-string rendering
`f"{item.get('reference_min', '')}-..."` of an optional bound.  Only the fact
that the full gender string always contains the `"-"` separator — and hence
never matches a catalog gender key — matters downstream. -/
def pyNumStr (o : Option ℚ) : String :=
  match o with
  | none => ""
  | some q => toString q

/-- Modelled from the spec: Python `float(str)` on the numeric strings the
vision model can emit — optional sign, digits, optional decimal part
(exponents/specials omitted); anything else raises `ValueError`, modelled as
`none`. -/
def pyFloatOfString (s : String) : Option ℚ :=
  let t := pyStripList s.data
  let neg : Bool := match t with
    | '-' :: _ => true
    | _ => false
  let t1 : List Char := match t with
    | '-' :: r => r
    | '+' :: r => r
    | r => r
  let intPart := t1.takeWhile (·.isDigit)
  let rest := t1.dropWhile (·.isDigit)
  let fracPart : List Char := match rest with
    | '.' :: r => r.takeWhile (·.isDigit)
    | _ => []
  let rest2 : List Char := match rest with
    | '.' :: r => r.dropWhile (·.isDigit)
    | r => r
  if rest2 = [] ∧ (intPart ≠ [] ∨ fracPart ≠ []) then
    let digitsToNat : List Char → Nat := fun l => l.foldl (fun n c => n * 10 + (c.toNat - 48)) 0
    let num : ℚ := (digitsToNat intPart : ℚ) + (digitsToNat fracPart : ℚ) / ((10 : ℚ) ^ fracPart.length)
    some (if neg then -num else num)
  else none

/-- The vision branch of `standardize_agent`
(graphs/lab_extraction/nodes.py:258-275), per candidate: the name defaults to
`""`, a MISSING value defaults to `0` (`bio.get("value", 0)`) and the flag is
computed against that `0`; a string-typed value reaches the comparisons in
`get_flag` and raises `TypeError` (modelled as `none` — the exception
escapes the node). -/
def pdfStandardizeCandidate (c : VisionBiomarker) : Option StdBiomarker :=
  match c.value with
  | some (.str _) => none
  | v =>
    let value : ℚ := match v with
      | some (.num q) => q
      | _ => 0
    let std_name := standardize_biomarker_name (c.name.getD "")
    let flag := get_flag std_name value none none none
    some
      { name := c.name.getD "",
        standardized_name := std_name,
        category := get_biomarker_category std_name,
        value := value,
        unit := c.unit.getD "",
        reference_min := c.reference_min,
        reference_max := c.reference_max,
        flag := flag.orElse (fun _ => c.flag),
        is_abnormal := flag.isSome || c.flag.isSome }

/-- The image-path loop body (routers/process.py:257-296), per candidate:
drop it when the name is falsy, the value missing, or `float(value)` fails;
otherwise standardize, resolve ranges (the spurious `"min-max"` string passed
as gender never matches a gender key), let explicit bounds override each side
individually, and flag. -/
def imageProcessCandidate (c : VisionBiomarker) : Option StdBiomarker :=
  if truthyS c.name = false then none
  else
    match c.value with
    | none => none
    | some v =>
      match (match v with | .num q => some q | .str s => pyFloatOfString s) with
      | none => none
      | some value =>
        let std := standardize_biomarker_name (c.name.getD "")
        let gender : Option String :=
          if truthyQ c.reference_min then
            some (pyNumStr c.reference_min ++ "-" ++ pyNumStr c.reference_max)
          else none
        let rm0 := get_reference_range std gender
        let rmin := match c.reference_min with | some q => some q | none => rm0.1
        let rmax := match c.reference_max with | some q => some q | none => rm0.2
        let flag := get_flag std value rmin rmax none
        some
          { name := c.name.getD "",
            standardized_name := std,
            category := get_biomarker_category std,
            value := value,
            unit := c.unit.getD "",
            reference_min := rmin,
            reference_max := rmax,
            flag := flag,
            is_abnormal := flag.isSome }

/-- The whole image-path biomarker list: candidates surviving the filters. -/
def imageProcessBiomarkers (cs : List VisionBiomarker) : List StdBiomarker :=
  cs.filterMap imageProcessCandidate

/-! ### C10 — divergence of the two paths on value-less candidates -/

/-- C10: a candidate with an ABSENT `value` is kept by the PDF path's
standardize step with `value = 0` and its flag computed against `0` (for
hemoglobin this yields `CRITICAL_LOW`), whereas the image path drops every
candidate whose name is falsy, whose value is missing, or whose value fails
`float()` conversion. -/
theorem c10_valueless_divergence :
    (∀ c : VisionBiomarker, c.value = none →
      pdfStandardizeCandidate c =
        some
          { name := c.name.getD "",
            standardized_name := standardize_biomarker_name (c.name.getD ""),
            category := get_biomarker_category (standardize_biomarker_name (c.name.getD "")),
            value := 0,
            unit := c.unit.getD "",
            reference_min := c.reference_min,
            reference_max := c.reference_max,
            flag := (get_flag (standardize_biomarker_name (c.name.getD "")) 0 none none none).orElse
              (fun _ => c.flag),
            is_abnormal := (get_flag (standardize_biomarker_name (c.name.getD "")) 0 none none
              none).isSome || c.flag.isSome }) ∧
    (∀ c : VisionBiomarker, c.value = none → imageProcessCandidate c = none) ∧
    (∀ (c : VisionBiomarker) (s : String), c.value = some (PyVal.str s) →
      pyFloatOfString s = none → imageProcessCandidate c = none) ∧
    (∀ c : VisionBiomarker, truthyS c.name = false → imageProcessCandidate c = none) ∧
    ((pdfStandardizeCandidate
        { name := some "Hemoglobin", value := none, unit := some "g/dL" }).map
      (fun o => (o.value, o.flag))) = some (0, some "CRITICAL_LOW") ∧
    imageProcessCandidate { name := some "Hemoglobin", value := none, unit := some "g/dL" } = none := by
  have hflag0 : get_flag "hemoglobin" 0 none none none = some "CRITICAL_LOW" := by
    unfold get_flag
    simp only [Option.isNone_none, Bool.or_self, if_true, reference_range_hemoglobin_default]
    norm_num
  refine ⟨fun c h => ?_, fun c h => ?_, fun c s h hs => ?_, fun c h => ?_, ?_, ?_⟩
  · unfold pdfStandardizeCandidate
    rw [h]
  · unfold imageProcessCandidate
    rw [h]
    split <;> rfl
  · unfold imageProcessCandidate
    rw [h]
    split
    · rfl
    · dsimp only
      rw [hs]
  · unfold imageProcessCandidate
    rw [if_pos h]
  · have hstd : standardize_biomarker_name "Hemoglobin" = "hemoglobin" := by decide
    unfold pdfStandardizeCandidate
    dsimp only
    rw [show (some "Hemoglobin").getD "" = "Hemoglobin" from rfl, hstd, hflag0]
    rfl
  · unfold imageProcessCandidate
    rfl

/-- Witness for C10: the drop clauses applied at concrete candidates — a
value-less candidate, a non-numeric string value, and a nameless one. -/
theorem c10_valueless_divergence_witness :
    imageProcessCandidate { name := some "Iron", value := none } = none ∧
    imageProcessCandidate { name := some "Iron", value := some (PyVal.str "n/a") } = none ∧
    imageProcessCandidate { name := none, value := some (PyVal.num 3) } = none :=
  ⟨c10_valueless_divergence.2.1 { name := some "Iron", value := none } rfl,
   c10_valueless_divergence.2.2.1 { name := some "Iron", value := some (PyVal.str "n/a") } "n/a"
     rfl (by decide),
   c10_valueless_divergence.2.2.2.1 { name := none, value := some (PyVal.num 3) } rfl⟩

/-! ### `extract_json_from_text` — a JSON model and the recovery strategies -/

/-- JSON values, as produced by Python's `json.loads`. -/
inductive Json where
  | jnull
  | jbool (b : Bool)
  | jnum (q : ℚ)
  | jstr (s : List Char)
  | jarr (elems : List Json)
  | jobj (fields : List (List Char × Json))

/-- JSON whitespace (`json.loads` skips exactly these). -/
def isJsonWs (c : Char) : Bool := c = ' ' || c = '\t' || c = '\n' || c = '\r'

/-- Skip JSON whitespace. -/
def skipWs (l : List Char) : List Char := l.dropWhile isJsonWs

/-- Hex digit value. -/
def hexVal (c : Char) : Option Nat :=
  if '0' ≤ c ∧ c ≤ '9' then some (c.toNat - 48)
  else if 'a' ≤ c ∧ c ≤ 'f' then some (c.toNat - 87)
  else if 'A' ≤ c ∧ c ≤ 'F' then some (c.toNat - 55)
  else none

/-- Modelled from the spec: the string scanner of Python's strict
`json.loads` — the input after the opening quote; returns the decoded
characters and the remainder after the closing quote.  Unescaped control
characters and invalid escapes are rejected. -/
def parseJStr : Nat → List Char → Option (List Char × List Char)
  | 0, _ => none
  | _ + 1, [] => none
  | fuel + 1, c :: rest =>
    if c = '"' then some ([], rest)
    else if c = '\\' then
      match rest with
      | [] => none
      | e :: rest2 =>
        let dec : Option (Char × List Char) :=
          if e = '"' then some ('"', rest2)
          else if e = '\\' then some ('\\', rest2)
          else if e = '/' then some ('/', rest2)
          else if e = 'b' then some ('\x08', rest2)
          else if e = 'f' then some ('\x0c', rest2)
          else if e = 'n' then some ('\n', rest2)
          else if e = 'r' then some ('\r', rest2)
          else if e = 't' then some ('\t', rest2)
          else if e = 'u' then
            match rest2 with
            | h1 :: h2 :: h3 :: h4 :: rest3 =>
              match hexVal h1, hexVal h2, hexVal h3, hexVal h4 with
              | some a, some b, some c3, some d =>
                some (Char.ofNat (((a * 16 + b) * 16 + c3) * 16 + d), rest3)
              | _, _, _, _ => none
            | _ => none
          else none
        match dec with
        | none => none
        | some (ch, rest3) =>
          match parseJStr fuel rest3 with
          | some (s, r) => some (ch :: s, r)
          | none => none
    else if c.toNat < 32 then none
    else
      match parseJStr fuel rest with
      | some (s, r) => some (c :: s, r)
      | none => none

/-- Numeric value of a digit run. -/
def digitsVal (l : List Char) : Nat :=
  l.foldl (fun n c => n * 10 + (c.toNat - 48)) 0

/-- The integer digits of a JSON number (`0|[1-9][0-9]*`): a leading `0`
stands alone. -/
def parseIntDigits (l : List Char) : Option (List Char × List Char) :=
  match l with
  | '0' :: rest => some (['0'], rest)
  | c :: _ =>
    if c.isDigit then some (l.takeWhile (·.isDigit), l.dropWhile (·.isDigit))
    else none
  | [] => none

/-- Modelled from the spec: the number production of Python's `json.loads`
(`NUMBER_RE`): optional minus, integer part, optional fraction, optional
exponent; a malformed suffix is simply not consumed (the scanner then fails
on it as trailing input). -/
def parseJNum (l : List Char) : Option (Json × List Char) :=
  let neg : Bool := match l with | '-' :: _ => true | _ => false
  let l1 : List Char := match l with | '-' :: r => r | r => r
  match parseIntDigits l1 with
  | none => none
  | some (ds, r1) =>
    let frac : Option (List Char) := match r1 with
      | '.' :: rr => if (rr.takeWhile (·.isDigit)) = [] then none else some (rr.takeWhile (·.isDigit))
      | _ => none
    let r2 : List Char := match frac with
      | some _ => (match r1 with | _ :: rr => rr.dropWhile (·.isDigit) | [] => [])
      | none => r1
    let expPart : Option Int × List Char := match r2 with
      | e :: rr =>
        if e = 'e' ∨ e = 'E' then
          let esign : Int := match rr with | '-' :: _ => -1 | _ => 1
          let rr2 : List Char := match rr with | '-' :: z => z | '+' :: z => z | z => z
          let eds := rr2.takeWhile (·.isDigit)
          if eds = [] then (none, r2)
          else (some (esign * (digitsVal eds : Int)), rr2.dropWhile (·.isDigit))
        else (none, r2)
      | [] => (none, r2)
    let base : ℚ := (digitsVal ds : ℚ) +
      (match frac with
       | some fs => (digitsVal fs : ℚ) / ((10 : ℚ) ^ fs.length)
       | none => 0)
    let scaled : ℚ := match expPart.1 with
      | some z => base * ((10 : ℚ) ^ z)
      | none => base
    some (Json.jnum (if neg then -scaled else scaled), expPart.2)

/-- Python `dict` insertion for object fields (duplicate keys: last value
wins, first-insertion key order). -/
def objInsert (fs : List (List Char × Json)) (k : List Char) (v : Json) :
    List (List Char × Json) :=
  if fs.any (·.1 = k) then fs.map (fun p => if p.1 = k then (k, v) else p)
  else fs ++ [(k, v)]

/-- Collapse duplicate object keys the way a Python dict does. -/
def dedupObjFields (fs : List (List Char × Json)) : List (List Char × Json) :=
  fs.foldl (fun acc p => objInsert acc p.1 p.2) []

/-- Array elements after the first `[` (non-empty case): value, then `,`
or `]`. -/
def parseArrElems (pv : List Char → Option (Json × List Char)) :
    Nat → List Char → Option (List Json × List Char)
  | 0, _ => none
  | fuel + 1, l =>
    match pv l with
    | none => none
    | some (v, r) =>
      match skipWs r with
      | ',' :: r2 =>
        match parseArrElems pv fuel r2 with
        | some (vs, rr) => some (v :: vs, rr)
        | none => none
      | ']' :: r2 => some ([v], r2)
      | _ => none

/-- Object fields after the first `{` (non-empty case): `"key": value`,
then `,` or `}`. -/
def parseObjFields (pv : List Char → Option (Json × List Char)) :
    Nat → List Char → Option (List (List Char × Json) × List Char)
  | 0, _ => none
  | fuel + 1, l =>
    match skipWs l with
    | '"' :: r =>
      match parseJStr (r.length + 1) r with
      | none => none
      | some (k, r1) =>
        match skipWs r1 with
        | ':' :: r2 =>
          match pv r2 with
          | none => none
          | some (v, r3) =>
            match skipWs r3 with
            | ',' :: r4 =>
              match parseObjFields pv fuel r4 with
              | some (fs, rr) => some ((k, v) :: fs, rr)
              | none => none
            | '}' :: r4 => some ([(k, v)], r4)
            | _ => none
        | _ => none
    | _ => none

/-- Modelled from the spec: the value parser of Python's strict
`json.loads`, fuel-indexed so that it computes by structural recursion. -/
def parseJVal : Nat → List Char → Option (Json × List Char)
  | 0, _ => none
  | fuel + 1, l =>
    match skipWs l with
    | [] => none
    | c :: rest =>
      if c = '{' then
        match skipWs rest with
        | '}' :: r2 => some (Json.jobj [], r2)
        | _ =>
          match parseObjFields (parseJVal fuel) fuel rest with
          | some (fs, r) => some (Json.jobj (dedupObjFields fs), r)
          | none => none
      else if c = '[' then
        match skipWs rest with
        | ']' :: r2 => some (Json.jarr [], r2)
        | _ =>
          match parseArrElems (parseJVal fuel) fuel rest with
          | some (vs, r) => some (Json.jarr vs, r)
          | none => none
      else if c = '"' then
        match parseJStr (rest.length + 1) rest with
        | some (s, r) => some (Json.jstr s, r)
        | none => none
      else if c = 'n' then
        match rest with
        | 'u' :: 'l' :: 'l' :: r => some (Json.jnull, r)
        | _ => none
      else if c = 't' then
        match rest with
        | 'r' :: 'u' :: 'e' :: r => some (Json.jbool true, r)
        | _ => none
      else if c = 'f' then
        match rest with
        | 'a' :: 'l' :: 's' :: 'e' :: r => some (Json.jbool false, r)
        | _ => none
      else if c = '-' ∨ c.isDigit then parseJNum (c :: rest)
      else none

/-- Modelled from the spec: Python `json.loads` — parse one value and demand
only whitespace after it. -/
def json_loads (l : List Char) : Option Json :=
  match parseJVal (l.length + 1) l with
  | some (v, rest) => if skipWs rest = [] then some v else none
  | none => none

/-! #### The recovery strategies of `extract_json_from_text` -/

/-- Case-insensitive prefix test (the `re.IGNORECASE` of the fence regex). -/
def ciIsPrefix : List Char → List Char → Bool
  | [], _ => true
  | _ :: _, [] => false
  | p :: ps, c :: cs => (pyLowerChar p = pyLowerChar c) && ciIsPrefix ps cs

/-- The remainder after the first (case-insensitive) occurrence of `pat`,
as `re.search` locates the leftmost match start. -/
def afterCIMarker (pat : List Char) : List Char → Option (List Char)
  | [] => if ciIsPrefix pat [] then some [] else none
  | c :: t =>
    if ciIsPrefix pat (c :: t) then some ((c :: t).drop pat.length)
    else afterCIMarker pat t

/-- The content before the first triple backtick — where the lazy
`([\s\S]*?)\s*` group of the fence regexes ends (the surrounding `\s*` is
subsumed by the `.strip()` applied to the group). -/
def takeUntilTicks : List Char → Option (List Char)
  | [] => none
  | c :: rest =>
    if c = '`' then
      match rest with
      | '`' :: '`' :: _ => some []
      | _ =>
        match takeUntilTicks rest with
        | some l => some (c :: l)
        | none => none
    else
      match takeUntilTicks rest with
      | some l => some (c :: l)
      | none => none

/-- `"```json"` as a character pattern. -/
def jsonFencePat : List Char := ['`', '`', '`', 'j', 's', 'o', 'n']

/-- `"```"` as a character pattern. -/
def ticksPat : List Char := ['`', '`', '`']

/-- One fence pattern of strategy 2: locate the opening marker, capture up to
the next `"```"`, strip (the regex only matches when the closing fence
exists). -/
def stripFencedBlock (pat : List Char) (text : List Char) : Option (List Char) :=
  match afterCIMarker pat text with
  | none => none
  | some rest =>
    match takeUntilTicks rest with
    | none => none
    | some content => some (pyStripList content)

/-- `text.find('{')`: the suffix starting at the first `{`. -/
def skipToBrace : List Char → Option (List Char)
  | [] => none
  | c :: r => if c = '{' then some (c :: r) else skipToBrace r

/-- The depth-counting loop of strategy 3, after the opening `{`
(depth already 1): the span up to the brace that first returns the depth to
zero — blind to string context, exactly as in the source. -/
def braceGo : Nat → List Char → Option (List Char)
  | _, [] => none
  | d, c :: r =>
    if c = '{' then
      match braceGo (d + 1) r with
      | some l => some (c :: l)
      | none => none
    else if c = '}' then
      if d = 1 then some ['}']
      else
        match braceGo (d - 1) r with
        | some l => some (c :: l)
        | none => none
    else
      match braceGo d r with
      | some l => some (c :: l)
      | none => none

/-- `text[start_idx:end_idx + 1]` — the balanced-brace span, `none` when the
scan never returns to depth zero (`end_idx > start_idx` fails). -/
def takeBalanced (l : List Char) : Option (List Char) :=
  match l with
  | '{' :: r =>
    match braceGo 1 r with
    | some s => some ('{' :: s)
    | none => none
  | _ => none

/-- Strategy 3 in full: first `{`, balanced span, parse. -/
def braceExtract (text : List Char) : Option Json :=
  match skipToBrace text with
  | none => none
  | some tl =>
    match takeBalanced tl with
    | none => none
    | some span => json_loads span

/-- `VisionService.extract_json_from_text`: direct parse, then the two fence
patterns, then the balanced-brace span; `None` when everything fails (and on
empty input). -/
def extract_json_from_text (text : List Char) : Option Json :=
  if text = [] then none
  else
    match json_loads (pyStripList text) with
    | some v => some v
    | none =>
      match (match stripFencedBlock jsonFencePat text with
             | some content => json_loads content
             | none => none) with
      | some v => some v
      | none =>
        match (match stripFencedBlock ticksPat text with
               | some content => json_loads content
               | none => none) with
        | some v => some v
        | none => braceExtract text

/-- The parse-or-error outcome of `extract_from_image` over the raw model
response (vision_service.py:163-174): a successful parse is returned as-is;
otherwise an explicit `{"error": "Failed to parse response", ...}` result —
never an exception. -/
inductive ExtractOutcome where
  | parsed (j : Json)
  | failure (error : String)

def extract_from_image_parse (raw : List Char) : ExtractOutcome :=
  match extract_json_from_text raw with
  | some p => ExtractOutcome.parsed p
  | none => ExtractOutcome.failure "Failed to parse response"

/-! #### Lemmas about the strategies -/

theorem json_loads_nil : json_loads [] = none := rfl

theorem parseJVal_backtick (fuel : Nat) (r : List Char) :
    parseJVal fuel ('`' :: r) = none := by
  cases fuel with
  | zero => rfl
  | succ n =>
    unfold parseJVal
    have hws : skipWs ('`' :: r) = '`' :: r := by
      simp [skipWs, List.dropWhile_cons, isJsonWs]
    rw [hws]
    simp

theorem json_loads_backtick (r : List Char) : json_loads ('`' :: r) = none := by
  unfold json_loads
  rw [parseJVal_backtick]

theorem pyStripList_cons_ws (c : Char) (h : isPySpace c = true) (xs : List Char) :
    pyStripList (c :: xs) = pyStripList xs := by
  simp [pyStripList, List.dropWhile_cons, h]

theorem pyStripList_concat_ws (c : Char) (h : isPySpace c = true) (xs : List Char) :
    pyStripList (xs ++ [c]) = pyStripList xs := by
  unfold pyStripList
  rw [List.dropWhile_append]
  split
  · rename_i hemp
    have hxs : xs.dropWhile isPySpace = [] := by simpa [List.isEmpty_iff] using hemp
    rw [hxs]
    simp [List.dropWhile_cons, h]
  · rename_i hemp
    rw [List.reverse_append]
    simp [List.dropWhile_cons, h]

theorem pyStripList_cons_nonws (c : Char) (h : isPySpace c = false) (xs : List Char) :
    pyStripList (c :: xs) = c :: ((xs.reverse.dropWhile isPySpace).reverse) := by
  unfold pyStripList
  rw [List.dropWhile_cons]
  rw [h]
  simp only [Bool.false_eq_true, if_false, List.reverse_cons]
  rw [List.dropWhile_append]
  split
  · rename_i hemp
    have hxs : xs.reverse.dropWhile isPySpace = [] := by simpa [List.isEmpty_iff] using hemp
    rw [hxs]
    simp [List.dropWhile_cons, h]
  · simp

theorem takeUntilTicks_append (l r : List Char) (h : ∀ c ∈ l, c ≠ '`') :
    takeUntilTicks (l ++ '`' :: '`' :: '`' :: r) = some l := by
  induction l with
  | nil => rfl
  | cons c t ih =>
    have hc : c ≠ '`' := h c (List.mem_cons_self c t)
    show takeUntilTicks (c :: (t ++ '`' :: '`' :: '`' :: r)) = some (c :: t)
    unfold takeUntilTicks
    rw [if_neg hc, ih (fun x hx => h x (List.mem_cons.mpr (Or.inr hx)))]

theorem pyLowerChar_ne_backtick {c : Char} (h : c ≠ '`') : pyLowerChar c ≠ '`' := by
  unfold pyLowerChar
  split
  · rename_i h1
    intro hc
    have h2 := congrArg Char.toNat hc
    rw [charOfNat_toNat (by omega)] at h2
    have h3 : ('`' : Char).toNat = 96 := by decide
    omega
  · exact h

theorem afterCIMarker_backtick_none (ps : List Char) :
    ∀ (text : List Char), (∀ c ∈ text, c ≠ '`') →
    afterCIMarker ('`' :: ps) text = none := by
  intro text
  induction text with
  | nil => intro h; rfl
  | cons c t ih =>
    intro h
    have hc : c ≠ '`' := h c (List.mem_cons_self c t)
    have h2 : pyLowerChar c ≠ '`' := pyLowerChar_ne_backtick hc
    have hpre : ciIsPrefix ('`' :: ps) (c :: t) = false := by
      unfold ciIsPrefix
      have h3 : pyLowerChar '`' = '`' := by decide
      rw [h3]
      have hd : decide ('`' = pyLowerChar c) = false :=
        decide_eq_false (fun hh => h2 hh.symm)
      rw [hd, Bool.false_and]
    unfold afterCIMarker
    rw [hpre]
    simp only [Bool.false_eq_true, if_false]
    exact ih (fun x hx => h x (List.mem_cons.mpr (Or.inr hx)))

theorem skipToBrace_append (p s : List Char) (h : ∀ c ∈ p, c ≠ '{') :
    skipToBrace (p ++ s) = skipToBrace s := by
  induction p with
  | nil => rfl
  | cons c t ih =>
    have hc : c ≠ '{' := h c (List.mem_cons_self c t)
    show skipToBrace (c :: (t ++ s)) = skipToBrace s
    conv_lhs => unfold skipToBrace
    rw [if_neg hc]
    exact ih (fun x hx => h x (List.mem_cons.mpr (Or.inr hx)))

/-! ### C6 — JSON recovery equivalences -/

/-- C6 (amended): for a string `s` that parses directly as JSON and contains
no backtick, wrapping it in ```` ```json ```` fences parses to the same value;
prefixing it with prose (no backtick, no `{` in the prose) still yields that
value provided the direct parse of the concatenation fails and the
balanced-brace scan over `s` itself recovers the value (the scan is blind to
braces inside string literals, which is what the counterexample exploits);
and when every strategy fails, `extract_from_image` returns an explicit
parse-failure result instead of raising. -/
theorem c6_json_recovery :
    (∀ (s : List Char) (v : Json),
      json_loads (pyStripList s) = some v →
      (∀ c ∈ s, c ≠ '`') →
      extract_json_from_text s = some v ∧
      extract_json_from_text
        ('`' :: '`' :: '`' :: 'j' :: 's' :: 'o' :: 'n' :: '\n' ::
          (s ++ '\n' :: '`' :: '`' :: '`' :: [])) = some v) ∧
    (∀ (prose s : List Char) (v : Json),
      json_loads (pyStripList s) = some v →
      (∀ c ∈ s, c ≠ '`') →
      (∀ c ∈ prose, c ≠ '`' ∧ c ≠ '{') →
      json_loads (pyStripList (prose ++ s)) = none →
      braceExtract s = some v →
      extract_json_from_text (prose ++ s) = some v) ∧
    (∀ raw : List Char, extract_json_from_text raw = none →
      extract_from_image_parse raw = ExtractOutcome.failure "Failed to parse response") := by
  refine ⟨fun s v h1 h2 => ⟨?_, ?_⟩, fun prose s v h1 h2 h3 h4 h5 => ?_, fun raw h => ?_⟩
  · -- direct parse
    have hsne : s ≠ [] := by
      intro h0
      rw [h0, show pyStripList ([] : List Char) = [] from rfl, json_loads_nil] at h1
      exact Option.noConfusion h1
    unfold extract_json_from_text
    rw [if_neg hsne, h1]
  · -- fenced
    have e1 : json_loads (pyStripList
        ('`' :: '`' :: '`' :: 'j' :: 's' :: 'o' :: 'n' :: '\n' ::
          (s ++ '\n' :: '`' :: '`' :: '`' :: []))) = none := by
      rw [pyStripList_cons_nonws '`' (by decide), json_loads_backtick]
    have p1 : pyLowerChar '`' = '`' := by decide
    have p2 : pyLowerChar 'j' = 'j' := by decide
    have p3 : pyLowerChar 's' = 's' := by decide
    have p4 : pyLowerChar 'o' = 'o' := by decide
    have p5 : pyLowerChar 'n' = 'n' := by decide
    have eA : afterCIMarker jsonFencePat
        ('`' :: '`' :: '`' :: 'j' :: 's' :: 'o' :: 'n' :: '\n' ::
          (s ++ '\n' :: '`' :: '`' :: '`' :: [])) =
        some ('\n' :: (s ++ '\n' :: '`' :: '`' :: '`' :: [])) := by
      simp [afterCIMarker, ciIsPrefix, jsonFencePat, p1, p2, p3, p4, p5]
    have eB : takeUntilTicks ('\n' :: (s ++ '\n' :: '`' :: '`' :: '`' :: [])) =
        some ('\n' :: (s ++ ['\n'])) := by
      have hsplit : '\n' :: (s ++ '\n' :: '`' :: '`' :: '`' :: ([] : List Char)) =
          ('\n' :: (s ++ ['\n'])) ++ '`' :: '`' :: '`' :: [] := by
        simp
      rw [hsplit]
      refine takeUntilTicks_append _ _ ?_
      intro c hc
      rcases List.mem_cons.mp hc with h | h
      · rw [h]; decide
      · rcases List.mem_append.mp h with h | h
        · exact h2 c h
        · rw [List.mem_singleton.mp h]; decide
    have eC : pyStripList ('\n' :: (s ++ ['\n'])) = pyStripList s := by
      rw [pyStripList_cons_ws '\n' (by decide), pyStripList_concat_ws '\n' (by decide)]
    have e2 : stripFencedBlock jsonFencePat
        ('`' :: '`' :: '`' :: 'j' :: 's' :: 'o' :: 'n' :: '\n' ::
          (s ++ '\n' :: '`' :: '`' :: '`' :: [])) = some (pyStripList s) := by
      unfold stripFencedBlock
      simp only [eA, eB, eC]
    unfold extract_json_from_text
    rw [if_neg (by simp)]
    simp only [e1, e2, h1]
  · -- prose prefix
    have hsne : s ≠ [] := by
      intro h0
      rw [h0, show pyStripList ([] : List Char) = [] from rfl, json_loads_nil] at h1
      exact Option.noConfusion h1
    have hne : prose ++ s ≠ [] := by
      intro h0
      rcases List.append_eq_nil.mp h0 with ⟨-, h0s⟩
      exact hsne h0s
    have hnb : ∀ c ∈ prose ++ s, c ≠ '`' := by
      intro c hc
      rcases List.mem_append.mp hc with h | h
      · exact (h3 c h).1
      · exact h2 c h
    have e2 : afterCIMarker jsonFencePat (prose ++ s) = none :=
      afterCIMarker_backtick_none _ _ hnb
    have e3 : afterCIMarker ticksPat (prose ++ s) = none :=
      afterCIMarker_backtick_none _ _ hnb
    have e4 : skipToBrace (prose ++ s) = skipToBrace s :=
      skipToBrace_append _ _ (fun c hc => (h3 c hc).2)
    unfold extract_json_from_text
    rw [if_neg hne]
    unfold stripFencedBlock braceExtract
    unfold braceExtract at h5
    simp only [h4, e2, e3, e4]
    exact h5
  · unfold extract_from_image_parse
    rw [h]

/-- Witness for C6: the equivalences at a concrete object (no numerics, so
everything computes by `rfl`/`decide`): `{"a": null}` direct, fenced, and
behind the prose `"note "`; plus the error result on an unparseable
response. -/
theorem c6_json_recovery_witness :
    extract_json_from_text ['{', '"', 'a', '"', ':', ' ', 'n', 'u', 'l', 'l', '}'] =
      some (Json.jobj [(['a'], Json.jnull)]) ∧
    extract_json_from_text
      ('`' :: '`' :: '`' :: 'j' :: 's' :: 'o' :: 'n' :: '\n' ::
        (['{', '"', 'a', '"', ':', ' ', 'n', 'u', 'l', 'l', '}'] ++
          '\n' :: '`' :: '`' :: '`' :: [])) = some (Json.jobj [(['a'], Json.jnull)]) ∧
    extract_json_from_text
      (['n', 'o', 't', 'e', ' '] ++ ['{', '"', 'a', '"', ':', ' ', 'n', 'u', 'l', 'l', '}']) =
      some (Json.jobj [(['a'], Json.jnull)]) ∧
    extract_from_image_parse ['h', 'i'] = ExtractOutcome.failure "Failed to parse response" := by
  have hdirect : json_loads (pyStripList
      ['{', '"', 'a', '"', ':', ' ', 'n', 'u', 'l', 'l', '}']) =
      some (Json.jobj [(['a'], Json.jnull)]) := rfl
  have hnb : ∀ c ∈ ['{', '"', 'a', '"', ':', ' ', 'n', 'u', 'l', 'l', '}'], c ≠ '`' := by decide
  refine ⟨(c6_json_recovery.1 _ _ hdirect hnb).1,
    (c6_json_recovery.1 _ _ hdirect hnb).2,
    c6_json_recovery.2.1 ['n', 'o', 't', 'e', ' '] _ _ hdirect hnb (by decide) rfl rfl,
    c6_json_recovery.2.2 ['h', 'i'] rfl⟩

/-- C6 counterexample: the claim fails for JSON objects that contain braces
inside string literals — separately from backtick content, the brace scan of
strategy 3 is blind to strings.  `s = {"a": "}"}` parses directly, but with
leading prose the balanced-brace scan stops at the `}` INSIDE the string and
`extract_json_from_text` returns `None` instead of the object. -/
theorem c6_counterexample :
    extract_json_from_text ['{', '"', 'a', '"', ':', ' ', '"', '}', '"', '}'] =
      some (Json.jobj [(['a'], Json.jstr ['}'])]) ∧
    extract_json_from_text
      (['n', 'o', 't', 'e', ' '] ++ ['{', '"', 'a', '"', ':', ' ', '"', '}', '"', '}']) = none ∧
    (some (Json.jobj [(['a'], Json.jstr ['}'])]) : Option Json) ≠ none :=
  ⟨rfl, rfl, fun h => Option.noConfusion h⟩

/-! ### The PDF service over an abstract document -/

/-- The PyMuPDF-visible content of a PDF file. -/
structure PdfDoc where
  pages : Nat
  encrypted : Bool
  password : Option String := none
  text : String := ""
  tables : List (List (List String)) := []
  hasImages : Bool := false

/-- `fitz.open` either yields a document or raises (`none`). -/
abbrev PdfFile := Option PdfDoc

/-- `PDFService.check_encryption` — fails closed (`False` on unreadable). -/
def pdf_check_encryption : PdfFile → Bool
  | none => false
  | some d => d.encrypted

/-- `PDFService.decrypt_pdf` — `(success, error)`. -/
def pdf_decrypt (f : PdfFile) (pw : String) : Bool × Option String :=
  match f with
  | none => (false, some "cannot open document")
  | some d =>
    if d.encrypted = false then (true, none)
    else if d.password = some pw then (true, none)
    else (false, some "Incorrect password")

/-- Whether page content is readable with the given credential. -/
def pdf_authenticated (f : PdfFile) (pw : Option String) : Bool :=
  match f with
  | none => false
  | some d =>
    d.encrypted = false ||
      (match pw with
       | some p => d.password = some p
       | none => false)

/-- `PDFService.extract_text` — the stripped text, `""` on any failure. -/
def pdf_extract_text (f : PdfFile) (pw : Option String) : String :=
  match f with
  | none => ""
  | some d =>
    if d.encrypted then
      match pw with
      | some p => if d.password = some p then pyStrip d.text else ""
      | none => ""
    else pyStrip d.text

/-- `PDFService.extract_tables` — empty on any failure. -/
def pdf_extract_tables (f : PdfFile) (pw : Option String) : List (List (List String)) :=
  match f with
  | none => []
  | some d => if pdf_authenticated (some d) pw then d.tables else []

/-- `PDFService.has_images_or_scanned` — `True` when unreadable; else low
text density per page or any embedded image. -/
def pdf_has_images_or_scanned (f : PdfFile) (pw : Option String) : Bool :=
  match f with
  | none => true
  | some d =>
    if d.encrypted = true ∧ pdf_authenticated (some d) pw = false then true
    else ((pyStrip d.text).length / max d.pages 1 < 100) || d.hasImages

/-- `PDFService.pdf_to_images` — one PNG per page, empty on failure. -/
def pdf_to_images (f : PdfFile) (pw : Option String) : List String :=
  match f with
  | none => []
  | some d =>
    if d.encrypted = true ∧ pdf_authenticated (some d) pw = false then []
    else (List.range d.pages).map (fun i => "page_" ++ toString (i + 1) ++ ".png")

/-- `PDFService.get_page_count` — `0` on failure. -/
def pdf_get_page_count : PdfFile → Nat
  | none => 0
  | some d => d.pages

/-! ### The workflow state and oracle environment -/

/-- `LabExtractionState` (graphs/lab_extraction/state.py); the empty-dict
`vision_data` is `none`.  The `errors` channel is append-only
(`Annotated[List[str], add]`): every node update concatenates. -/
structure LabState where
  pdf_path : String
  patient_id : String
  clinic_id : String
  thread_id : String
  report_date : Option String
  user_provided_date : Bool
  is_encrypted : Bool
  password : Option String
  decrypt_error : Option String
  extracted_text : String
  extracted_tables : List (List (List String))
  needs_vision : Bool
  image_paths : List String
  vision_data : Option MergedVision
  combined_data : String
  report_type : String
  lab_name : Option String
  biomarkers : List StdBiomarker
  report_id : Option String
  status : String
  errors : List String

/-- The agent's structured output (`LabReportExtractionSchema`). -/
structure LLMBio where
  name : String
  value : ℚ
  unit : String
  reference_min : Option ℚ := none
  reference_max : Option ℚ := none

structure LLMResult where
  report_type : String
  lab_name : Option String := none
  biomarkers : List LLMBio := []

/-- The oracle environment standing for the external collaborators:
the file system / PyMuPDF (`fileExists`, `doc`), the vision model
(`visionPage`, one result per rendered page image), the structured-output
LLM call (`llm`; `none` models an exception), the database (`dbOk`: all
inserts/saves succeed — this also covers the model-validation failure of the
`BiomarkerTrend` constructor in `save_results`, which omits the required
`clinic_id`), the datetime parser and the current time. -/
structure Env where
  fileExists : Bool
  doc : PdfFile
  visionPage : String → PageResult
  llm : Option LLMResult
  dbOk : Bool
  parseDate : String → Option Int
  now : Int

/-! ### The graph nodes (graphs/lab_extraction/nodes.py) -/

def receive_upload (env : Env) (st : LabState) : LabState :=
  if env.fileExists = false then
    { st with
        errors := st.errors ++ ["PDF file not found: " ++ st.pdf_path],
        status := "failed" }
  else if pdf_get_page_count env.doc = 0 then
    { st with
        errors := st.errors ++ ["Invalid PDF file or no pages found"],
        status := "failed" }
  else { st with status := "processing" }

def check_encryption (env : Env) (st : LabState) : LabState :=
  { st with is_encrypted := pdf_check_encryption env.doc }

def decrypt_pdf_node (env : Env) (st : LabState) : LabState :=
  if truthyS st.password = false then
    { st with decrypt_error := some "No password provided", status := "waiting_password" }
  else
    match pdf_decrypt env.doc (st.password.getD "") with
    | (true, _) => { st with decrypt_error := none }
    | (false, err) =>
      { st with
          decrypt_error := some (err.getD ""),
          errors := st.errors ++ ["Decryption failed: " ++ err.getD ""] }

def extract_text_node (env : Env) (st : LabState) : LabState :=
  let text := pdf_extract_text env.doc st.password
  let needs_vision :=
    decide ((pyStrip text).length < 100) || pdf_has_images_or_scanned env.doc st.password
  { st with
      extracted_text := text,
      extracted_tables := pdf_extract_tables env.doc st.password,
      needs_vision := needs_vision }

def vision_extraction_node (env : Env) (st : LabState) : LabState :=
  if st.needs_vision = false then { st with vision_data := none }
  else
    let image_paths := pdf_to_images env.doc st.password
    if image_paths = [] then
      { st with
          errors := st.errors ++ ["Failed to convert PDF to images"],
          vision_data := none, image_paths := [] }
    else
      { st with
          vision_data := some (extract_from_multiple_images (image_paths.map env.visionPage)),
          image_paths := image_paths }

/-- Python `"\n".join`. -/
def pyJoin (sep : String) : List String → String
  | [] => ""
  | p :: ps => ps.foldl (fun acc q => acc ++ sep ++ q) p

/-- One table rendered as in `collect_data`. -/
def renderTable (i : Nat) (t : List (List String)) : List String :=
  ("\nTable " ++ toString (i + 1) ++ ":") ::
    t.map (fun row => pyJoin " | " (row.map (fun cell => if cell = "" then "" else cell)))

/-- Modelled from the spec: `json.dumps(vision_data, indent=2)`; only its
non-emptiness is observable downstream (the combined blob's emptiness test). -/
def jsonDumpsVision (_ : MergedVision) : String := "vision json"

def collect_data_node (st : LabState) : LabState :=
  let textPart : List String :=
    if st.extracted_text ≠ "" then ["=== TEXT EXTRACTION ===", st.extracted_text] else []
  let tablesPart : List String :=
    if st.extracted_tables ≠ [] then
      "\n=== TABLES ===" ::
        ((List.zip (List.range st.extracted_tables.length) st.extracted_tables).foldr
          (fun p acc => renderTable p.1 p.2 ++ acc) [])
    else []
  let visionPart : List String :=
    match st.vision_data with
    | some m => if m.biomarkers ≠ [] then ["\n=== VISION EXTRACTION ===", jsonDumpsVision m] else []
    | none => []
  { st with combined_data := pyJoin "\n" (textPart ++ tablesPart ++ visionPart) }

/-- One agent-extracted biomarker standardized by the LLM branch of
`standardize_agent` (nodes.py:303-322). -/
def stdOfLLM (b : LLMBio) : StdBiomarker :=
  let std := standardize_biomarker_name b.name
  let flag := get_flag std b.value none none none
  { name := b.name, standardized_name := std,
    category := get_biomarker_category std,
    value := b.value, unit := b.unit,
    reference_min := b.reference_min, reference_max := b.reference_max,
    flag := flag, is_abnormal := flag.isSome }

/-- The agent branch of `standardize_agent` (the `try` block; an exception
from the model call appends an error and leaves `status` untouched). -/
def standardize_llm_path (env : Env) (st : LabState) : LabState :=
  match env.llm with
  | some res =>
    { st with
      biomarkers := res.biomarkers.map stdOfLLM,
      report_type := res.report_type, lab_name := res.lab_name }
  | none =>
    { st with
        errors := st.errors ++ ["Agent extraction failed: model error"],
        biomarkers := [], report_type := "OTHER" }

/-- `standardize_agent`: empty blob fails; vision candidates (when present)
are standardized directly — `none` models the uncaught `TypeError` a
string-typed candidate value raises there; else the agent path. -/
def standardize_agent_node (env : Env) (st : LabState) : Option LabState :=
  if pyStrip st.combined_data = "" then
    some { st with
        errors := st.errors ++ ["No data to process"], status := "failed",
        biomarkers := [], report_type := "OTHER" }
  else
    match st.vision_data with
    | some vd =>
      if vd.biomarkers ≠ [] then
        match vd.biomarkers.mapM pdfStandardizeCandidate with
        | some bios =>
          some { st with
              biomarkers := bios, report_type := vd.report_type,
              lab_name := vd.lab_name }
        | none => none
      else some (standardize_llm_path env st)
    | none => some (standardize_llm_path env st)

/-- The report-date actually persisted by `save_results` (nodes.py:356):
`datetime.fromisoformat(...)` when a (truthy) date is in the state, else
`datetime.utcnow()` — no suspension. -/
def save_results_report_date (report_date : Option String) (env : Env) : Option Int :=
  match report_date with
  | some s => if s ≠ "" then env.parseDate s else some env.now
  | none => some env.now

def save_results_node (env : Env) (st : LabState) : LabState :=
  match save_results_report_date st.report_date env with
  | none =>
    { st with errors := st.errors ++ ["Failed to save results: bad date"], status := "failed" }
  | some _ =>
    if env.dbOk then
      { st with report_id := some ("report-" ++ st.thread_id), status := "completed" }
    else
      { st with
          errors := st.errors ++ ["Failed to save results: database error"],
          status := "failed" }

/-! ### The graph runner (graph.py wiring plus checkpoint resumption) -/

/-- The outcome of one `ainvoke`: the final state, a suspension at
`request_password` (`interrupt()`), or an uncaught exception. -/
inductive RunRes where
  | finished (s : LabState)
  | interrupted (s : LabState)
  | raised (s : LabState)

/-- `extract_text → [vision_extraction] → collect_data → standardize_agent →
save_results` (graph.py:68-84). -/
def runFromExtract (env : Env) (st : LabState) : RunRes :=
  let st1 := extract_text_node env st
  let st2 := if st1.needs_vision then vision_extraction_node env st1 else st1
  let st3 := collect_data_node st2
  match standardize_agent_node env st3 with
  | none => RunRes.raised st3
  | some st4 => RunRes.finished (save_results_node env st4)

/-- `decrypt_pdf`, then `request_password` again (suspension) on error, else
on to extraction. -/
def runFromDecrypt (env : Env) (st : LabState) : RunRes :=
  let st1 := decrypt_pdf_node env st
  if st1.decrypt_error.isSome then RunRes.interrupted st1
  else runFromExtract env st1

/-- Modelled from the spec: LangGraph's checkpointed `interrupt()` at
`request_password` — with no resume value the run suspends; a resume value
becomes the node's return (`password`, `status := "processing"`), and the run
continues at `decrypt_pdf`. -/
def runFromRequestPassword (env : Env) (st : LabState) (resume : Option String) : RunRes :=
  match resume with
  | none => RunRes.interrupted st
  | some pw => runFromDecrypt env { st with password := some pw, status := "processing" }

/-- A fresh submission run: `receive_upload → check_encryption →
(request_password | extract_text)`.  The first encounter of `interrupt()`
always suspends, even when a password was supplied with the upload. -/
def submitRun (env : Env) (st0 : LabState) : RunRes :=
  let st1 := receive_upload env st0
  let st2 := check_encryption env st1
  if st2.is_encrypted then runFromRequestPassword env st2 none
  else runFromExtract env st2

/-- Modelled from the spec: `resume_with_password` re-enters the suspended
graph with the caller's password as the interrupt's resume value. -/
def resumeRun (env : Env) (st : LabState) (pw : String) : RunRes :=
  runFromRequestPassword env st (some pw)

/-! ### The HTTP layer (routers/process.py) -/

structure ResultPayload where
  report_type : String
  lab_name : Option String
  biomarkers : List StdBiomarker
  total_biomarkers : Nat
  abnormal_count : Nat

structure ProcessResponse where
  status : String
  thread_id : String
  report_id : Option String := none
  message : String
  result : Option ResultPayload := none

/-- The `initial_state` dict of `process_lab_report` (process.py:120-142). -/
def initial_state (file_path patient_id clinic_id thread_id : String)
    (report_date pdf_password : Option String) : LabState :=
  { pdf_path := file_path, patient_id := patient_id, clinic_id := clinic_id,
    thread_id := thread_id, report_date := report_date,
    user_provided_date := report_date.isSome,
    is_encrypted := false, password := pdf_password, decrypt_error := none,
    extracted_text := "", extracted_tables := [], needs_vision := false,
    image_paths := [], vision_data := none, combined_data := "",
    report_type := "OTHER", lab_name := none, biomarkers := [],
    report_id := none, status := "processing", errors := [] }

def mkResult (st : LabState) : ResultPayload :=
  { report_type := st.report_type, lab_name := st.lab_name,
    biomarkers := st.biomarkers,
    total_biomarkers := st.biomarkers.length,
    abnormal_count := (st.biomarkers.filter (·.is_abnormal)).length }

/-- The response construction of `process_lab_report` after `ainvoke`
(process.py:154-193); an escaped non-interrupt exception becomes an HTTP 500
(status `"http_500"` here). -/
def process_lab_report_response (thread_id : String) (r : RunRes) : ProcessResponse :=
  match r with
  | RunRes.raised _ =>
    { status := "http_500", thread_id := thread_id, message := "internal server error" }
  | RunRes.finished st | RunRes.interrupted st =>
    if st.status = "waiting_password" then
      { status := "waiting_password", thread_id := thread_id,
        message := "PDF is encrypted. Please provide the password." }
    else if st.status = "waiting_date" then
      { status := "waiting_date", thread_id := thread_id,
        message := "Could not extract report date. Please provide the test date." }
    else if st.errors ≠ [] then
      { status := "failed", thread_id := thread_id,
        message := pyJoin "; " st.errors }
    else
      { status := "completed", thread_id := thread_id, report_id := st.report_id,
        message := "Successfully processed " ++ toString st.biomarkers.length ++ " biomarkers",
        result := some (mkResult st) }

/-- The response construction of `resume_with_password` (process.py:436-476):
a decrypt error wins, then accumulated errors, then success. -/
def resume_with_password_response (thread_id : String) (r : RunRes) : ProcessResponse :=
  match r with
  | RunRes.raised _ =>
    { status := "http_500", thread_id := thread_id, message := "internal server error" }
  | RunRes.finished st | RunRes.interrupted st =>
    if st.decrypt_error.isSome then
      { status := "waiting_password", thread_id := thread_id,
        message := "Decryption failed: " ++ (st.decrypt_error.getD "") ++ ". Please try again." }
    else if st.errors ≠ [] then
      { status := "failed", thread_id := thread_id, message := pyJoin "; " st.errors }
    else
      { status := "completed", thread_id := thread_id, report_id := st.report_id,
        message := "Successfully processed " ++ toString st.biomarkers.length ++ " biomarkers",
        result := some (mkResult st) }

/-- `process_image_report` (process.py:210-362) as a function of the oracle
environment: vision result, date resolution (suspending with `waiting_date`
when neither the caller nor the page supplies one), the candidate filter
loop, and persistence. -/
def process_image_report (env : Env) (file_path thread_id : String)
    (report_date : Option String) : ProcessResponse :=
  match env.visionPage file_path with
  | PageResult.err e =>
    { status := "failed", thread_id := thread_id,
      message := "Failed to extract data from image: " ++ e }
  | PageResult.ok page =>
    let final_date := if truthyS report_date then report_date else page.report_date
    if truthyS final_date = false then
      { status := "waiting_date", thread_id := thread_id,
        message := "Could not extract report date from image. Please provide the test date." }
    else
      let biomarkers := imageProcessBiomarkers page.biomarkers
      match (match final_date with | some s => env.parseDate s | none => none) with
      | none =>
        { status := "failed", thread_id := thread_id, message := "invalid date format" }
      | some _ =>
        if env.dbOk then
          { status := "completed", thread_id := thread_id,
            report_id := some ("report-" ++ thread_id),
            message := "Successfully processed " ++ toString biomarkers.length ++ " biomarkers",
            result := some
              { report_type := page.report_type.getD "OTHER",
                lab_name := page.lab_name, biomarkers := biomarkers,
                total_biomarkers := biomarkers.length,
                abnormal_count := (biomarkers.filter (·.is_abnormal)).length } }
        else
          { status := "failed", thread_id := thread_id, message := "database error" }

/-! ### Concrete documents and environments for end-to-end evaluation -/

/-- An unencrypted one-page report whose text survives `strip` and is long
enough to bypass the vision path. -/
def demoDoc : PdfDoc :=
  { pages := 1, encrypted := false, password := none,
    text := String.mk (List.replicate 200 'x'), tables := [], hasImages := false }

/-- A vision page carrying no report date and no biomarkers. -/
def demoPage : VisionPage :=
  { lab_name := some "Acme Lab", report_date := none, report_type := some "CBC",
    patient_info := [], biomarkers := [] }

/-- An agent extraction with no biomarkers. -/
def demoLr : LLMResult := { report_type := "CBC", lab_name := some "Acme Lab", biomarkers := [] }

/-- Everything readable and healthy, but the document yields no biomarkers
and no report date. -/
def demoEnv : Env :=
  { fileExists := true, doc := some demoDoc,
    visionPage := fun _ => PageResult.ok demoPage,
    llm := some demoLr, dbOk := true,
    parseDate := fun _ => some 0, now := 0 }

/-- A submission whose file cannot be opened at all. -/
def badEnv : Env :=
  { fileExists := false, doc := none,
    visionPage := fun _ => PageResult.err "no file",
    llm := none, dbOk := false,
    parseDate := fun _ => none, now := 0 }

/-- The `demoDoc` content behind the password `"s3cret"`. -/
def c5doc : PdfDoc :=
  { pages := 1, encrypted := true, password := some "s3cret",
    text := String.mk (List.replicate 200 'x'), tables := [], hasImages := false }

def c5lr : LLMResult := { report_type := "CBC", lab_name := some "Acme Lab", biomarkers := [] }

def c5env : Env :=
  { fileExists := true, doc := some c5doc,
    visionPage := fun _ => PageResult.err "unused",
    llm := some c5lr, dbOk := true,
    parseDate := fun _ => some 0, now := 0 }

/-- The state checkpointed at `request_password` for a fresh `c5env` upload. -/
def c5st0 : LabState := initial_state "e.pdf" "p1" "c1" "t5" none none

/-- The state checkpointed after a resume with the wrong password. -/
def c5stW : LabState :=
  { c5st0 with
      password := some "wrong", status := "processing",
      decrypt_error := some "Incorrect password",
      errors := ["Decryption failed: Incorrect password"] }

/-! ### Node-level lemmas for the end-to-end runs -/

theorem pdf_extract_text_of_auth (d : PdfDoc) (pw : Option String)
    (h : pdf_authenticated (some d) pw = true) :
    pdf_extract_text (some d) pw = pyStrip d.text := by
  cases he : d.encrypted with
  | false => simp [pdf_extract_text, he]
  | true =>
    cases pw with
    | none => simp [pdf_authenticated, he] at h
    | some p =>
      simp only [pdf_authenticated, he, Bool.or_eq_true, decide_eq_true_eq] at h
      rcases h with h | h
      · cases h
      · simp [pdf_extract_text, he, h]

theorem pdf_extract_tables_of_auth (d : PdfDoc) (pw : Option String)
    (h : pdf_authenticated (some d) pw = true) :
    pdf_extract_tables (some d) pw = d.tables := by
  simp [pdf_extract_tables, h]

theorem pdf_has_images_of_auth (d : PdfDoc) (pw : Option String)
    (h : pdf_authenticated (some d) pw = true) :
    pdf_has_images_or_scanned (some d) pw =
      (decide ((pyStrip d.text).length / max d.pages 1 < 100) || d.hasImages) := by
  unfold pdf_has_images_or_scanned
  dsimp only
  rw [if_neg]
  rintro ⟨-, hc⟩
  rw [h] at hc
  cases hc

theorem pdf_to_images_of_zero (f : PdfFile) (pw : Option String)
    (h : pdf_get_page_count f = 0) : pdf_to_images f pw = [] := by
  cases f with
  | none => rfl
  | some d =>
    have hp : d.pages = 0 := h
    unfold pdf_to_images
    dsimp only
    split
    · rfl
    · simp [hp]

theorem pyJoin_foldl_exists (sep : String) :
    ∀ (ps : List String) (acc : String),
      ∃ t, ps.foldl (fun a q => a ++ sep ++ q) acc = acc ++ t := by
  intro ps
  induction ps with
  | nil => exact fun acc => ⟨"", (String.append_empty acc).symm⟩
  | cons q qs ih =>
    intro acc
    obtain ⟨t, ht⟩ := ih (acc ++ sep ++ q)
    refine ⟨sep ++ q ++ t, ?_⟩
    rw [List.foldl_cons, ht]
    simp [String.append_assoc]

theorem pyJoin_cons_exists (sep p : String) (ps : List String) :
    ∃ t, pyJoin sep (p :: ps) = p ++ t :=
  pyJoin_foldl_exists sep ps p

theorem pyStrip_marker_append_ne (t : String) :
    pyStrip ("=== TEXT EXTRACTION ===" ++ t) ≠ "" := by
  intro h
  have hd := congrArg String.data h
  rw [show String.data (pyStrip ("=== TEXT EXTRACTION ===" ++ t)) =
        pyStripList ('=' :: ("== TEXT EXTRACTION ===".data ++ t.data)) from rfl,
      pyStripList_cons_nonws '=' (by decide)] at hd
  exact List.noConfusion hd

theorem collect_data_errors (st : LabState) : (collect_data_node st).errors = st.errors := rfl

theorem collect_data_vision (st : LabState) :
    (collect_data_node st).vision_data = st.vision_data := rfl

theorem extract_text_errors (env : Env) (st : LabState) :
    (extract_text_node env st).errors = st.errors := rfl

theorem extract_text_vision (env : Env) (st : LabState) :
    (extract_text_node env st).vision_data = st.vision_data := rfl

theorem collect_combined_strip_ne (st : LabState) (h : st.extracted_text ≠ "") :
    pyStrip (collect_data_node st).combined_data ≠ "" := by
  unfold collect_data_node
  dsimp only
  rw [if_pos h]
  simp only [List.cons_append, List.nil_append]
  obtain ⟨t, ht⟩ := pyJoin_cons_exists "\n" "=== TEXT EXTRACTION ===" _
  rw [ht]
  exact pyStrip_marker_append_ne t

theorem ne_nil_append {α : Type} {a : List α} (h : a ≠ []) (b : List α) :
    a ++ b ≠ [] := by
  cases a with
  | nil => exact absurd rfl h
  | cons x xs => simp

theorem vision_node_facts (env : Env) (st : LabState)
    (h : pdf_to_images env.doc st.password = []) :
    (vision_extraction_node env st).vision_data = none ∧
    (vision_extraction_node env st).report_date = st.report_date ∧
    ∃ l, (vision_extraction_node env st).errors = st.errors ++ l := by
  unfold vision_extraction_node
  by_cases hnv : st.needs_vision = false
  · rw [if_pos hnv]
    exact ⟨rfl, rfl, [], (List.append_nil st.errors).symm⟩
  · rw [if_neg hnv]
    dsimp only
    rw [h, if_pos rfl]
    exact ⟨rfl, rfl, ["Failed to convert PDF to images"], rfl⟩

theorem standardize_no_vd_exists (env : Env) (st : LabState)
    (hvd : st.vision_data = none) :
    ∃ st' l, standardize_agent_node env st = some st' ∧
      st'.errors = st.errors ++ l ∧ st'.report_date = st.report_date := by
  unfold standardize_agent_node
  by_cases hc : pyStrip st.combined_data = ""
  · rw [if_pos hc]
    exact ⟨_, ["No data to process"], rfl, rfl, rfl⟩
  · rw [if_neg hc, hvd]
    unfold standardize_llm_path
    cases hll : env.llm with
    | none =>
      exact ⟨_, ["Agent extraction failed: model error"], rfl, rfl, rfl⟩
    | some lr =>
      exact ⟨_, [], rfl, (List.append_nil st.errors).symm, rfl⟩

theorem save_results_facts (env : Env) (st : LabState) :
    ∃ l, (save_results_node env st).errors = st.errors ++ l ∧
      ((save_results_node env st).status = "failed" ∨
       (save_results_node env st).status = "completed") := by
  unfold save_results_node
  cases hd : save_results_report_date st.report_date env with
  | none =>
    exact ⟨["Failed to save results: bad date"], rfl, Or.inl rfl⟩
  | some t =>
    cases hb : env.dbOk with
    | true =>
      exact ⟨[], (List.append_nil st.errors).symm, Or.inr rfl⟩
    | false =>
      exact ⟨["Failed to save results: database error"], rfl, Or.inl rfl⟩

theorem save_results_completed (env : Env) (st : LabState)
    (hrd : st.report_date = none) (hdb : env.dbOk = true) :
    save_results_node env st =
      { st with report_id := some ("report-" ++ st.thread_id),
                status := "completed" } := by
  unfold save_results_node
  rw [hrd, show save_results_report_date none env = some env.now from rfl, hdb]
  rfl

theorem runFromExtract_llm_path (env : Env) (st : LabState) (d : PdfDoc) (lr : LLMResult)
    (hdoc : env.doc = some d)
    (hauth : pdf_authenticated (some d) st.password = true)
    (hstrip : pyStrip d.text = d.text)
    (h100 : ¬ d.text.length < 100)
    (hdens : ¬ d.text.length / max d.pages 1 < 100)
    (himg : d.hasImages = false)
    (hvd : st.vision_data = none)
    (hllm : env.llm = some lr) :
    runFromExtract env st =
      RunRes.finished (save_results_node env
        { collect_data_node
            { st with extracted_text := d.text, extracted_tables := d.tables,
                      needs_vision := false } with
          biomarkers := lr.biomarkers.map stdOfLLM,
          report_type := lr.report_type, lab_name := lr.lab_name }) := by
  have htext : pdf_extract_text env.doc st.password = d.text := by
    rw [hdoc, pdf_extract_text_of_auth d st.password hauth, hstrip]
  have htab : pdf_extract_tables env.doc st.password = d.tables := by
    rw [hdoc, pdf_extract_tables_of_auth d st.password hauth]
  have himg2 : pdf_has_images_or_scanned env.doc st.password = false := by
    rw [hdoc, pdf_has_images_of_auth d st.password hauth, hstrip]
    simp [hdens, himg]
  have e1 : extract_text_node env st =
      { st with extracted_text := d.text, extracted_tables := d.tables,
                needs_vision := false } := by
    unfold extract_text_node
    dsimp only
    rw [htext, htab, himg2, hstrip]
    simp [h100]
  have htne : d.text ≠ "" := by
    intro h0
    exact h100 (by rw [h0]; decide)
  have e3 : standardize_agent_node env (collect_data_node
      { st with extracted_text := d.text, extracted_tables := d.tables,
                needs_vision := false }) =
      some { collect_data_node
          { st with extracted_text := d.text, extracted_tables := d.tables,
                    needs_vision := false } with
        biomarkers := lr.biomarkers.map stdOfLLM,
        report_type := lr.report_type, lab_name := lr.lab_name } := by
    have hne : ¬ (pyStrip (collect_data_node
        { st with extracted_text := d.text, extracted_tables := d.tables,
                  needs_vision := false }).combined_data = "") :=
      collect_combined_strip_ne _ htne
    unfold standardize_agent_node
    rw [if_neg hne, collect_data_vision,
        show ({ st with
                  extracted_text := d.text, extracted_tables := d.tables,
                  needs_vision := false } : LabState).vision_data = st.vision_data from rfl,
        hvd]
    unfold standardize_llm_path
    rw [hllm]
    try rfl
  unfold runFromExtract
  dsimp only
  rw [e1, if_neg (by simp), e3]
  try rfl

theorem runFromExtract_errors_persist (env : Env) (st : LabState)
    (himgs : pdf_to_images env.doc st.password = [])
    (hvd : st.vision_data = none) :
    ∃ stF l, runFromExtract env st = RunRes.finished stF ∧
      stF.errors = st.errors ++ l ∧
      (stF.status = "failed" ∨ stF.status = "completed") := by
  unfold runFromExtract
  dsimp only
  by_cases hnv : (extract_text_node env st).needs_vision = true
  · rw [if_pos hnv]
    obtain ⟨hv1, -, l2, hv3⟩ := vision_node_facts env (extract_text_node env st) himgs
    obtain ⟨st4, l4, hstd, herr4, -⟩ :=
      standardize_no_vd_exists env
        (collect_data_node (vision_extraction_node env (extract_text_node env st)))
        (by rw [collect_data_vision]; exact hv1)
    rw [hstd]
    obtain ⟨l5, herr5, hst5⟩ := save_results_facts env st4
    refine ⟨save_results_node env st4, l2 ++ (l4 ++ l5), rfl, ?_, hst5⟩
    rw [herr5, herr4, collect_data_errors, hv3, extract_text_errors]
    simp [List.append_assoc]
  · rw [if_neg hnv]
    obtain ⟨st4, l4, hstd, herr4, -⟩ :=
      standardize_no_vd_exists env (collect_data_node (extract_text_node env st))
        (by rw [collect_data_vision, extract_text_vision]; exact hvd)
    rw [hstd]
    obtain ⟨l5, herr5, hst5⟩ := save_results_facts env st4
    refine ⟨save_results_node env st4, l4 ++ l5, rfl, ?_, hst5⟩
    rw [herr5, herr4, collect_data_errors, extract_text_errors]
    simp [List.append_assoc]

theorem plr_failed_of (tid : String) (st : LabState)
    (hs : st.status = "failed" ∨ st.status = "completed")
    (he : st.errors ≠ []) :
    (process_lab_report_response tid (RunRes.finished st)).status = "failed" := by
  unfold process_lab_report_response
  dsimp only
  rcases hs with hs | hs <;>
    rw [hs, if_neg (by decide), if_neg (by decide), if_pos he]

theorem plr_completed_of (tid : String) (st : LabState)
    (hs : st.status = "completed") (he : st.errors = []) :
    (process_lab_report_response tid (RunRes.finished st)).status = "completed" ∧
    (process_lab_report_response tid (RunRes.finished st)).result = some (mkResult st) := by
  unfold process_lab_report_response
  dsimp only
  rw [hs, if_neg (by decide), if_neg (by decide), if_neg (by simp [he])]
  exact ⟨rfl, rfl⟩

theorem submit_pdf_completed (env : Env) (fp pid cid tid : String)
    (d : PdfDoc) (lr : LLMResult)
    (hfe : env.fileExists = true) (hdoc : env.doc = some d) (hpg : d.pages ≠ 0)
    (henc : d.encrypted = false) (hstrip : pyStrip d.text = d.text)
    (h100 : ¬ d.text.length < 100) (hdens : ¬ d.text.length / max d.pages 1 < 100)
    (himg : d.hasImages = false) (hllm : env.llm = some lr) (hdb : env.dbOk = true) :
    ∃ stF, submitRun env (initial_state fp pid cid tid none none) = RunRes.finished stF ∧
      stF.status = "completed" ∧ stF.errors = [] ∧
      stF.biomarkers = lr.biomarkers.map stdOfLLM := by
  have hrcv : receive_upload env (initial_state fp pid cid tid none none) =
      { initial_state fp pid cid tid none none with status := "processing" } := by
    unfold receive_upload
    rw [hfe, hdoc, if_neg (by decide),
        if_neg (show ¬ (pdf_get_page_count (some d) = 0) from hpg)]
  have hchk : check_encryption env
      { initial_state fp pid cid tid none none with status := "processing" } =
      { initial_state fp pid cid tid none none with
          status := "processing", is_encrypted := false } := by
    unfold check_encryption
    rw [hdoc, show pdf_check_encryption (some d) = d.encrypted from rfl, henc]
  have hrun : submitRun env (initial_state fp pid cid tid none none) =
      runFromExtract env { initial_state fp pid cid tid none none with
        status := "processing", is_encrypted := false } := by
    unfold submitRun
    dsimp only
    rw [hrcv, hchk, if_neg (by simp)]
  have hext := runFromExtract_llm_path env
    { initial_state fp pid cid tid none none with
        status := "processing", is_encrypted := false } d lr
    hdoc (by simp [pdf_authenticated, henc]) hstrip h100 hdens himg rfl hllm
  obtain ⟨Y, hY, hYrd, hYerr, hYbio⟩ :
      ∃ Y, runFromExtract env { initial_state fp pid cid tid none none with
              status := "processing", is_encrypted := false } =
            RunRes.finished (save_results_node env Y) ∧
        Y.report_date = none ∧ Y.errors = [] ∧
        Y.biomarkers = lr.biomarkers.map stdOfLLM :=
    ⟨_, hext, rfl, rfl, rfl⟩
  have hsave := save_results_completed env Y hYrd hdb
  refine ⟨{ Y with report_id := some ("report-" ++ Y.thread_id), status := "completed" },
    ?_, rfl, ?_, ?_⟩
  · rw [hrun, hY, hsave]
  · exact hYerr
  · exact hYbio

/-- C4: the spec claims a `waiting_date` suspension on BOTH paths when no
report date is available.  In the code only `process_image_report` suspends:
the PDF graph has no `waiting_date` node — `save_results` substitutes
`datetime.utcnow()` for a missing date and the run completes.  This theorem
exhibits the asymmetry: a dateless PDF submission finishes `"completed"`
(with `save_results` persisting `env.now`), while the dateless image path
returns `"waiting_date"`. -/
theorem c4_waiting_date_asymmetry (env : Env) (fp pid cid tid : String)
    (d : PdfDoc) (lr : LLMResult) (page : VisionPage)
    (hfe : env.fileExists = true) (hdoc : env.doc = some d) (hpg : d.pages ≠ 0)
    (henc : d.encrypted = false) (hstrip : pyStrip d.text = d.text)
    (h100 : ¬ d.text.length < 100) (hdens : ¬ d.text.length / max d.pages 1 < 100)
    (himg : d.hasImages = false) (hllm : env.llm = some lr) (hdb : env.dbOk = true)
    (hvp : env.visionPage fp = PageResult.ok page) (hpd : page.report_date = none) :
    (∃ stF, submitRun env (initial_state fp pid cid tid none none) = RunRes.finished stF ∧
       stF.status = "completed" ∧
       (process_lab_report_response tid
         (submitRun env (initial_state fp pid cid tid none none))).status = "completed") ∧
    save_results_report_date none env = some env.now ∧
    (process_image_report env fp tid none).status = "waiting_date" := by
  obtain ⟨stF, hfin, hst, herr, -⟩ :=
    submit_pdf_completed env fp pid cid tid d lr hfe hdoc hpg henc hstrip h100 hdens himg hllm hdb
  obtain ⟨hrs, -⟩ := plr_completed_of tid stF hst herr
  refine ⟨⟨stF, hfin, hst, ?_⟩, rfl, ?_⟩
  · rw [hfin]
    exact hrs
  · unfold process_image_report
    rw [hvp]
    dsimp only
    rw [hpd]
    rfl

set_option maxRecDepth 40000 in
/-- Witness for C4 at a concrete environment: a readable one-page dateless
PDF completes, and the dateless image submission suspends. -/
theorem c4_waiting_date_asymmetry_witness :
    (∃ stF,
       submitRun demoEnv (initial_state "r.pdf" "p7" "c7" "t7" none none) =
         RunRes.finished stF ∧
       stF.status = "completed" ∧
       (process_lab_report_response "t7"
         (submitRun demoEnv (initial_state "r.pdf" "p7" "c7" "t7" none none))).status =
         "completed") ∧
    save_results_report_date none demoEnv = some demoEnv.now ∧
    (process_image_report demoEnv "r.pdf" "t7" none).status = "waiting_date" :=
  c4_waiting_date_asymmetry demoEnv "r.pdf" "p7" "c7" "t7" demoDoc demoLr demoPage
    rfl rfl (by decide) rfl (by decide) (by decide) (by decide) rfl rfl rfl rfl rfl

/-- C8: the two failure shapes are distinguished as claimed.  (i) A readable
document from which the agent extracts zero biomarkers yields a `"completed"`
response with an empty result list and no recorded error.  (ii) A missing
file or a zero-page document yields a `"failed"` response, and the
orchestrator does not raise (the run ends finished or interrupted, never
as an escaped exception). -/
theorem c8_failure_shapes (env : Env) (fp pid cid tid : String)
    (d : PdfDoc) (lr : LLMResult) :
    (env.fileExists = true → env.doc = some d → d.pages ≠ 0 → d.encrypted = false →
     pyStrip d.text = d.text → ¬ d.text.length < 100 →
     ¬ d.text.length / max d.pages 1 < 100 → d.hasImages = false →
     env.llm = some lr → lr.biomarkers = [] → env.dbOk = true →
     ∃ stF, submitRun env (initial_state fp pid cid tid none none) = RunRes.finished stF ∧
       stF.errors = [] ∧ stF.biomarkers = [] ∧
       (process_lab_report_response tid
         (submitRun env (initial_state fp pid cid tid none none))).status = "completed" ∧
       (process_lab_report_response tid
         (submitRun env (initial_state fp pid cid tid none none))).result =
         some (mkResult stF) ∧
       (mkResult stF).total_biomarkers = 0) ∧
    (((env.fileExists = false ∧ env.doc = none) ∨ pdf_get_page_count env.doc = 0) →
     ∀ rdate pwd, ∃ stF,
       (submitRun env (initial_state fp pid cid tid rdate pwd) = RunRes.finished stF ∨
        submitRun env (initial_state fp pid cid tid rdate pwd) = RunRes.interrupted stF) ∧
       (process_lab_report_response tid
         (submitRun env (initial_state fp pid cid tid rdate pwd))).status = "failed") := by
  constructor
  · intro hfe hdoc hpg henc hstrip h100 hdens himg hllm hbio hdb
    obtain ⟨stF, hfin, hst, herr, hbio2⟩ :=
      submit_pdf_completed env fp pid cid tid d lr hfe hdoc hpg henc hstrip h100 hdens himg hllm hdb
    obtain ⟨hrs, hrr⟩ := plr_completed_of tid stF hst herr
    refine ⟨stF, hfin, herr, ?_, ?_, ?_, ?_⟩
    · rw [hbio2, hbio]
      rfl
    · rw [hfin]
      exact hrs
    · rw [hfin]
      exact hrr
    · show stF.biomarkers.length = 0
      rw [hbio2, hbio]
      rfl
  · intro hfail rdate pwd
    have hrcv : ∃ msg, receive_upload env (initial_state fp pid cid tid rdate pwd) =
        { initial_state fp pid cid tid rdate pwd with
            status := "failed", errors := [msg] } := by
      unfold receive_upload
      rcases hfail with ⟨hfe2, -⟩ | hpc
      · refine ⟨"PDF file not found: " ++ fp, ?_⟩
        rw [hfe2, if_pos rfl]
        rfl
      · by_cases hfe2 : env.fileExists = false
        · refine ⟨"PDF file not found: " ++ fp, ?_⟩
          rw [if_pos hfe2]
          rfl
        · refine ⟨"Invalid PDF file or no pages found", ?_⟩
          rw [if_neg hfe2, if_pos hpc]
          rfl
    obtain ⟨msg, hrcv⟩ := hrcv
    have hchk : check_encryption env
        { initial_state fp pid cid tid rdate pwd with
            status := "failed", errors := [msg] } =
        { initial_state fp pid cid tid rdate pwd with
            status := "failed", errors := [msg],
            is_encrypted := pdf_check_encryption env.doc } := rfl
    cases hb : pdf_check_encryption env.doc with
    | true =>
      have hsub : submitRun env (initial_state fp pid cid tid rdate pwd) =
          RunRes.interrupted { initial_state fp pid cid tid rdate pwd with
            status := "failed", errors := [msg], is_encrypted := true } := by
        unfold submitRun
        dsimp only
        rw [hrcv, hchk, hb, if_pos rfl]
        rfl
      refine ⟨_, Or.inr hsub, ?_⟩
      rw [hsub]
      unfold process_lab_report_response
      dsimp only
      rw [if_neg (by decide), if_neg (by decide), if_pos (by simp)]
    | false =>
      have hsub : submitRun env (initial_state fp pid cid tid rdate pwd) =
          runFromExtract env { initial_state fp pid cid tid rdate pwd with
            status := "failed", errors := [msg], is_encrypted := false } := by
        unfold submitRun
        dsimp only
        rw [hrcv, hchk, hb, if_neg (by simp)]
      have himgs : pdf_to_images env.doc
          ({ initial_state fp pid cid tid rdate pwd with
              status := "failed", errors := [msg],
              is_encrypted := false } : LabState).password = [] := by
        rcases hfail with ⟨-, hdn⟩ | hpc
        · rw [hdn]
          rfl
        · exact pdf_to_images_of_zero env.doc _ hpc
      obtain ⟨stF, l, hrf, herr, hst⟩ :=
        runFromExtract_errors_persist env
          { initial_state fp pid cid tid rdate pwd with
            status := "failed", errors := [msg], is_encrypted := false } himgs rfl
      refine ⟨stF, Or.inl (by rw [hsub, hrf]), ?_⟩
      rw [hsub, hrf]
      refine plr_failed_of tid stF hst ?_
      rw [herr]
      exact ne_nil_append (by simp) l

set_option maxRecDepth 40000 in
/-- Witness for C8: the zero-biomarker environment completes with an empty
result; the unreadable-file environment fails. -/
theorem c8_failure_shapes_witness :
    (∃ stF, submitRun demoEnv (initial_state "r.pdf" "p8" "c8" "t8" none none) =
         RunRes.finished stF ∧
       stF.errors = [] ∧ stF.biomarkers = [] ∧
       (process_lab_report_response "t8"
         (submitRun demoEnv (initial_state "r.pdf" "p8" "c8" "t8" none none))).status =
         "completed" ∧
       (process_lab_report_response "t8"
         (submitRun demoEnv (initial_state "r.pdf" "p8" "c8" "t8" none none))).result =
         some (mkResult stF) ∧
       (mkResult stF).total_biomarkers = 0) ∧
    (∃ stF,
       (submitRun badEnv (initial_state "r.pdf" "p8" "c8" "t8" none none) =
          RunRes.finished stF ∨
        submitRun badEnv (initial_state "r.pdf" "p8" "c8" "t8" none none) =
          RunRes.interrupted stF) ∧
       (process_lab_report_response "t8"
         (submitRun badEnv (initial_state "r.pdf" "p8" "c8" "t8" none none))).status =
         "failed") :=
  ⟨(c8_failure_shapes demoEnv "r.pdf" "p8" "c8" "t8" demoDoc demoLr).1
      rfl rfl (by decide) rfl (by decide) (by decide) (by decide) rfl rfl rfl rfl,
   (c8_failure_shapes badEnv "r.pdf" "p8" "c8" "t8" demoDoc demoLr).2
      (Or.inl ⟨rfl, rfl⟩) none none⟩

theorem resumeRun_eq (env : Env) (st : LabState) (pw : String) :
    resumeRun env st pw =
      runFromDecrypt env { st with password := some pw, status := "processing" } := rfl

theorem runFromDecrypt_some (env : Env) (st : LabState) (e : String)
    (hd : (decrypt_pdf_node env st).decrypt_error = some e) :
    runFromDecrypt env st = RunRes.interrupted (decrypt_pdf_node env st) := by
  unfold runFromDecrypt
  dsimp only
  rw [hd, if_pos (show (some e).isSome = true from rfl)]

theorem runFromDecrypt_none (env : Env) (st : LabState)
    (hd : (decrypt_pdf_node env st).decrypt_error = none) :
    runFromDecrypt env st = runFromExtract env (decrypt_pdf_node env st) := by
  unfold runFromDecrypt
  dsimp only
  rw [hd, if_neg (show ¬ ((none : Option String).isSome = true) by simp)]

set_option maxHeartbeats 2000000 in
/-- C5: resuming with a wrong password suspends again at `request_password`
with `waiting_password` and leaves `report_type`/`biomarkers` untouched, and
a subsequent resume with the correct password clears the decrypt error and
runs the pipeline to completion (`status = "completed"` in the graph state) —
but, because the `errors` channel is append-only and kept the earlier
`"Decryption failed"` entry, the endpoint's response reports `"failed"`, not
the claimed `"completed"`. -/
theorem c5_resume_password_flow (env : Env) (st : LabState) (d : PdfDoc)
    (pwW pwR : String) (lr : LLMResult)
    (hdoc : env.doc = some d) (henc : d.encrypted = true)
    (hpw : d.password = some pwR) (hne : pwW ≠ pwR)
    (hWne : pwW ≠ "") (hRne : pwR ≠ "")
    (hstrip : pyStrip d.text = d.text) (h100 : ¬ d.text.length < 100)
    (hdens : ¬ d.text.length / max d.pages 1 < 100) (himg : d.hasImages = false)
    (hvd : st.vision_data = none) (hrd : st.report_date = none)
    (hllm : env.llm = some lr) (hdb : env.dbOk = true) :
    ∃ stW, resumeRun env st pwW = RunRes.interrupted stW ∧
      stW.report_type = st.report_type ∧ stW.biomarkers = st.biomarkers ∧
      stW.decrypt_error = some "Incorrect password" ∧
      (resume_with_password_response st.thread_id (resumeRun env st pwW)).status =
        "waiting_password" ∧
      ∃ stF, resumeRun env stW pwR = RunRes.finished stF ∧
        stF.decrypt_error = none ∧ stF.status = "completed" ∧
        stF.report_type = lr.report_type ∧
        stF.biomarkers = lr.biomarkers.map stdOfLLM ∧
        stF.errors = st.errors ++ ["Decryption failed: Incorrect password"] ∧
        (resume_with_password_response st.thread_id (resumeRun env stW pwR)).status =
          "failed" := by
  have hdecW : decrypt_pdf_node env { st with password := some pwW, status := "processing" } =
      { st with
          password := some pwW, status := "processing",
          decrypt_error := some "Incorrect password",
          errors := st.errors ++ ["Decryption failed: Incorrect password"] } := by
    unfold decrypt_pdf_node
    dsimp only [truthyS, Option.getD]
    rw [if_neg (by simp [hWne]), hdoc]
    unfold pdf_decrypt
    dsimp only
    rw [if_neg (by simp [henc]),
        if_neg (show ¬ (d.password = some pwW) by
          rw [hpw]
          simp only [Option.some.injEq]
          exact fun h => hne h.symm)]
    rfl
  have hdecR : ∀ st' : LabState,
      decrypt_pdf_node env { st' with password := some pwR, status := "processing" } =
      { st' with password := some pwR, status := "processing", decrypt_error := none } := by
    intro st'
    unfold decrypt_pdf_node
    dsimp only [truthyS, Option.getD]
    rw [if_neg (by simp [hRne]), hdoc]
    unfold pdf_decrypt
    dsimp only
    rw [if_neg (by simp [henc]), if_pos hpw]
  have hW : resumeRun env st pwW = RunRes.interrupted
      { st with
          password := some pwW, status := "processing",
          decrypt_error := some "Incorrect password",
          errors := st.errors ++ ["Decryption failed: Incorrect password"] } := by
    rw [resumeRun_eq,
        runFromDecrypt_some env { st with password := some pwW, status := "processing" }
          "Incorrect password" (by rw [hdecW])]
    rw [hdecW]
  have hrespW : (resume_with_password_response st.thread_id (resumeRun env st pwW)).status =
      "waiting_password" := by
    rw [hW]
    unfold resume_with_password_response
    dsimp only
    rfl
  have hext := runFromExtract_llm_path env
    { { st with
          password := some pwW, status := "processing",
          decrypt_error := some "Incorrect password",
          errors := st.errors ++ ["Decryption failed: Incorrect password"] } with
        password := some pwR, status := "processing", decrypt_error := none }
    d lr hdoc (by simp [pdf_authenticated, hpw]) hstrip h100 hdens himg hvd hllm
  obtain ⟨Y, hYeq, hYrd, hYde, hYtid, hYrt, hYbio, hYerr⟩ :
      ∃ Y, runFromExtract env
          { { st with
                password := some pwW, status := "processing",
                decrypt_error := some "Incorrect password",
                errors := st.errors ++ ["Decryption failed: Incorrect password"] } with
              password := some pwR, status := "processing", decrypt_error := none } =
          RunRes.finished (save_results_node env Y) ∧
        Y.report_date = none ∧ Y.decrypt_error = none ∧ Y.thread_id = st.thread_id ∧
        Y.report_type = lr.report_type ∧
        Y.biomarkers = lr.biomarkers.map stdOfLLM ∧
        Y.errors = st.errors ++ ["Decryption failed: Incorrect password"] := by
    refine ⟨_, hext, ?_, ?_, ?_, ?_, ?_, ?_⟩
    · exact hrd
    · exact rfl
    · exact rfl
    · exact rfl
    · exact rfl
    · exact rfl
  have hsave := save_results_completed env Y hYrd hdb
  have hfinR : resumeRun env
      { st with
          password := some pwW, status := "processing",
          decrypt_error := some "Incorrect password",
          errors := st.errors ++ ["Decryption failed: Incorrect password"] } pwR =
      RunRes.finished
        { Y with report_id := some ("report-" ++ Y.thread_id), status := "completed" } := by
    refine Eq.trans (resumeRun_eq env _ pwR) ?_
    refine Eq.trans (runFromDecrypt_none env _
      (congrArg LabState.decrypt_error (hdecR
        { st with
            password := some pwW, status := "processing",
            decrypt_error := some "Incorrect password",
            errors := st.errors ++ ["Decryption failed: Incorrect password"] }))) ?_
    refine Eq.trans (congrArg (runFromExtract env) (hdecR
      { st with
          password := some pwW, status := "processing",
          decrypt_error := some "Incorrect password",
          errors := st.errors ++ ["Decryption failed: Incorrect password"] })) ?_
    exact hYeq.trans (congrArg RunRes.finished hsave)
  have hrespR : (resume_with_password_response st.thread_id (resumeRun env
      { st with
          password := some pwW, status := "processing",
          decrypt_error := some "Incorrect password",
          errors := st.errors ++ ["Decryption failed: Incorrect password"] } pwR)).status =
      "failed" := by
    rw [hfinR]
    unfold resume_with_password_response
    dsimp only
    rw [if_neg (by simp [hYde]), if_pos (by simp [hYerr])]
  refine ⟨{ st with
      password := some pwW, status := "processing",
      decrypt_error := some "Incorrect password",
      errors := st.errors ++ ["Decryption failed: Incorrect password"] },
    hW, rfl, rfl, rfl, hrespW, ?_⟩
  refine ⟨{ Y with report_id := some ("report-" ++ Y.thread_id), status := "completed" },
    hfinR, ?_, rfl, ?_, ?_, ?_, hrespR⟩
  · exact hYde
  · exact hYrt
  · exact hYbio
  · exact hYerr

set_option maxRecDepth 40000 in
/-- Witness for C5 at the concrete encrypted document `c5doc`: wrong password
`"wrong"`, correct password `"s3cret"`. -/
theorem c5_resume_password_flow_witness :
    ∃ stW, resumeRun c5env c5st0 "wrong" = RunRes.interrupted stW ∧
      stW.report_type = c5st0.report_type ∧ stW.biomarkers = c5st0.biomarkers ∧
      stW.decrypt_error = some "Incorrect password" ∧
      (resume_with_password_response c5st0.thread_id
        (resumeRun c5env c5st0 "wrong")).status = "waiting_password" ∧
      ∃ stF, resumeRun c5env stW "s3cret" = RunRes.finished stF ∧
        stF.decrypt_error = none ∧ stF.status = "completed" ∧
        stF.report_type = c5lr.report_type ∧
        stF.biomarkers = c5lr.biomarkers.map stdOfLLM ∧
        stF.errors = c5st0.errors ++ ["Decryption failed: Incorrect password"] ∧
        (resume_with_password_response c5st0.thread_id
          (resumeRun c5env stW "s3cret")).status = "failed" :=
  c5_resume_password_flow c5env c5st0 c5doc "wrong" "s3cret" c5lr
    rfl rfl rfl (by decide) (by decide) (by decide) (by decide) (by decide) (by decide)
    rfl rfl rfl rfl rfl

set_option maxRecDepth 40000 in
/-- Counterexample to C5 as stated: after the failed attempt, resuming with
the CORRECT password drives the graph state to `status = "completed"` with the
decrypt error cleared — yet `resume_with_password` answers `"failed"`, not the
claimed `"completed"`, because the append-only `errors` channel still holds
the earlier decryption failure. -/
theorem c5_counterexample :
    resumeRun c5env c5st0 "wrong" = RunRes.interrupted c5stW ∧
    (resume_with_password_response "t5" (resumeRun c5env c5st0 "wrong")).status =
      "waiting_password" ∧
    (∃ stF, resumeRun c5env c5stW "s3cret" = RunRes.finished stF ∧
      stF.status = "completed" ∧ stF.decrypt_error = none) ∧
    (resume_with_password_response "t5" (resumeRun c5env c5stW "s3cret")).status = "failed" ∧
    ("failed" : String) ≠ "completed" := by
  refine ⟨rfl, rfl, ⟨_, rfl, rfl, rfl⟩, rfl, by decide⟩
